import Mathlib

/-!
Verification development for a JVM class-file decoder written in Rust
(`src/parser.rs`, `src/util.rs`).

Shallow embedding conventions:
* The sequential byte source (`BufReader<File>` driven by `byteorder` reads)
  is modelled as a `List Nat` of bytes; every read consumes from the front.
* A decode step returns `POut α`: success with the remaining bytes, an error
  value (the Rust `Result::Err` path), or `POut.crash`, which models a Rust
  panic (used for the one out-of-bounds `Vec` index in `read_attribute`).
  A read past the end of the input is `PErrT.exhaustion`, the embedding of
  the `byteorder` unexpected-EOF I/O error.
* Error values are kept structurally (constructor + the data the Rust code
  formats into its message strings) rather than as formatted strings.
* Machine integers are `Nat`; u16 values assembled from two bytes are
  `hi * 256 + lo` exactly as the big-endian reads do.
* The mutual recursion `read_attribute` / `read_attributes` (through the
  `Code` and `Record` attributes), and the recursion inside annotation
  element values, are not structurally decreasing, so those parsers take a
  fuel argument; running out of fuel yields `PErrT.exhaustion`.  The
  entry-point wrappers supply fuel `input.length + 1`, which can never be
  exhausted because every recursion level first consumes at least one byte.
-/

namespace Jvm

/-- Errors produced by the modified-UTF-8 codec (`MalformedModifiedUtf8`).
Each constructor carries exactly the data the Rust code puts into the
formatted message. -/
inductive Utf8Err : Type where
  | leadingByteZeroOrHigh (i : Nat)
  | cannotBeLast (b1 : Nat)
  | twoCannotBeLast (b1 b2 : Nat)
  | expectedThreeMore (b1 b2 b3 existing : Nat)
  | invalidCodepoint (codepoint byte1Index : Nat)
deriving DecidableEq

/-- Errors returned by the class-file decoder (`MalformedClassFile` plus the
boxed codec error), kept structurally. `exhaustion` is the byteorder
unexpected-EOF I/O error for a read past the end of the input. -/
inductive PErrT : Type where
  | exhaustion
  | wrongValue (entryName : String) (valueRead valueExpected : Nat)
  | notOneOf (entryName : String) (valueRead : Nat) (valuesAllowed : List Nat)
  | utf8 (e : Utf8Err)
  | attrNameNotUtf8 (attributeNameIndex : Nat)
  | unknownAttributeName (name : String)
  | unknownFrameType (frameType : Nat)
  | unknownVerificationTag (tag : Nat)
  | unknownElementValueTag (tag : Nat)
  | unknownTargetType (targetType : Nat)
deriving DecidableEq

/-- Outcome of one decode step on a byte list: success with remaining input,
a returned error value, or a Rust panic. -/
inductive POut (α : Type) : Type where
  | ok : α → List Nat → POut α
  | err : PErrT → POut α
  | crash : POut α
deriving DecidableEq

/-- A decode step: consumes bytes from the front of the list. -/
def M (α : Type) : Type := List Nat → POut α

instance : Monad M where
  pure a := fun l => .ok a l
  bind p f := fun l =>
    match p l with
    | .ok a l' => f a l'
    | .err e => .err e
    | .crash => .crash

/-- A decode step that returns the given error without consuming input
(a Rust `return Err(...)`). -/
def errM (e : PErrT) : M α := fun _ => .err e

/-- A decode step that panics (models a Rust panic). -/
def crashM : M α := fun _ => .crash

/-- Embeds `reader.read_u8()`: one byte, or the unexpected-EOF I/O error. -/
def readU8 : M Nat := fun l =>
  match l with
  | [] => .err .exhaustion
  | b :: r => .ok b r

/-- Embeds `reader.read_u16::<BigEndian>()`. -/
def readU16 : M Nat := do
  let hi ← readU8
  let lo ← readU8
  pure (hi * 256 + lo)

/-- Embeds `reader.read_u32::<BigEndian>()`. -/
def readU32 : M Nat := do
  let b0 ← readU8
  let b1 ← readU8
  let b2 ← readU8
  let b3 ← readU8
  pure (((b0 * 256 + b1) * 256 + b2) * 256 + b3)

/-- A counted `for _ in 0..n { v.push(p()?) }` loop, collecting in order. -/
def readN (p : M α) : Nat → M (List α)
  | 0 => pure []
  | n + 1 => do
    let a ← p
    let as ← readN p n
    pure (a :: as)

@[simp] theorem bind_eval {α β : Type} (p : M α) (f : α → M β) (l : List Nat) :
    (p >>= f) l = match p l with
      | .ok a l' => f a l'
      | .err e => .err e
      | .crash => .crash := rfl

@[simp] theorem pure_eval {α : Type} (a : α) (l : List Nat) :
    (pure a : M α) l = .ok a l := rfl

theorem bind_ok {α β : Type} {p : M α} {f : α → M β} {l : List Nat} {a : α}
    {m : List Nat} (h : p l = .ok a m) : (p >>= f) l = f a m := by
  rw [bind_eval, h]

theorem bind_err {α β : Type} {p : M α} {f : α → M β} {l : List Nat} {e : PErrT}
    (h : p l = .err e) : (p >>= f) l = .err e := by
  rw [bind_eval, h]

theorem bind_crash {α β : Type} {p : M α} {f : α → M β} {l : List Nat}
    (h : p l = .crash) : (p >>= f) l = .crash := by
  rw [bind_eval, h]

@[simp] theorem readU8_nil : readU8 [] = .err .exhaustion := rfl

@[simp] theorem readU8_cons (b : Nat) (r : List Nat) : readU8 (b :: r) = .ok b r := rfl

theorem readU16_cons (b0 b1 : Nat) (r : List Nat) :
    readU16 (b0 :: b1 :: r) = .ok (b0 * 256 + b1) r := rfl

theorem readU32_cons (b0 b1 b2 b3 : Nat) (r : List Nat) :
    readU32 (b0 :: b1 :: b2 :: b3 :: r) =
      .ok (((b0 * 256 + b1) * 256 + b2) * 256 + b3) r := rfl

/-! ## The modified UTF-8 codec (`util.rs`, `modified_utf8_to_string`) -/

/-- Rust `char::from_u32`: a `u32` is a valid scalar value iff it is below
the surrogate range or between `0xE000` and `0x10FFFF`. -/
def charFromU32 (cp : Nat) : Option Nat :=
  if cp < 0xD800 ∨ (0xE000 ≤ cp ∧ cp ≤ 0x10FFFF) then some cp else none

/-- Embeds `char::from_u32(code_point).ok_or(err)?` followed by the push: if the
reconstructed code point is a valid scalar value it is prepended to the rest
of the decode, else the invalid-codepoint error is raised. -/
def pushScalar (cp : Nat) (e : Utf8Err) (k : Except Utf8Err (List Nat)) :
    Except Utf8Err (List Nat) :=
  match charFromU32 cp with
  | none => .error e
  | some c => k.map (fun cs => c :: cs)

/-- The body of the `while` loop of `modified_utf8_to_string`.  `i` tracks
the Rust byte index of the head of `l` (used only inside error values); the
produced "string" is the list of decoded scalar values. -/
def utf8Go (i : Nat) (l : List Nat) : Except Utf8Err (List Nat) :=
  match l with
  | [] => .ok []
  | b1 :: rest =>
    if b1 = 0 ∨ 0xF0 ≤ b1 then .error (.leadingByteZeroOrHigh i)
    else if b1 ≤ 0x7F then
      pushScalar b1 (.invalidCodepoint b1 i) (utf8Go (i + 1) rest)
    else
      match rest with
      | [] => .error (.cannotBeLast b1)
      | b2 :: rest2 =>
        if b1 &&& 0xE0 = 0xC0 then
          pushScalar (((b1 &&& 0x1F) <<< 6) + (b2 &&& 0x3F)) (.invalidCodepoint b1 (i + 1))
            (utf8Go (i + 2) rest2)
        else
          match rest2 with
          | [] => .error (.twoCannotBeLast b1 b2)
          | b3 :: rest3 =>
            if b1 &&& 0xF0 = 0xE0 then
              pushScalar (((b1 &&& 0xF) <<< 12) + ((b2 &&& 0x3F) <<< 6) + (b3 &&& 0x3F))
                (.invalidCodepoint b1 (i + 2)) (utf8Go (i + 3) rest3)
            else
              match rest3 with
              | _b4 :: b5 :: b6 :: rest6 =>
                pushScalar (0x10000 + ((b2 &&& 0x0F) <<< 16) + ((b3 &&& 0x3F) <<< 10) +
                    ((b5 &&& 0x0F) <<< 6) + (b6 &&& 0x3F))
                  (.invalidCodepoint b1 (i + 5)) (utf8Go (i + 6) rest6)
              | _ => .error (.expectedThreeMore b1 b2 b3 (rest3.length + 2))

/-- Embeds `modified_utf8_to_string` from `util.rs`: decodes the whole byte run into
a list of Unicode scalar values (the Rust `String`'s chars). -/
def modified_utf8_to_string (bytes : List Nat) : Except Utf8Err (List Nat) :=
  utf8Go 0 bytes

/-! ## Constant pool (`parser.rs`) -/

/-- Embeds `MethodHandleReferenceKind`, discriminants 1–9. -/
inductive MethodHandleReferenceKind : Type where
  | getField | getStatic | putField | putStatic
  | invokeVirtual | invokeStatic | invokeSpecial
  | newInvokeSpecial | invokeInterface
deriving DecidableEq

namespace MethodHandleReferenceKind

/-- The numeric discriminant (`e as u8`). -/
def toNat : MethodHandleReferenceKind → Nat
  | getField => 1
  | getStatic => 2
  | putField => 3
  | putStatic => 4
  | invokeVirtual => 5
  | invokeStatic => 6
  | invokeSpecial => 7
  | newInvokeSpecial => 8
  | invokeInterface => 9

/-- The `TryFrom<u8>` impl: matches the value against each discriminant in
declaration order. -/
def tryFrom (v : Nat) : Option MethodHandleReferenceKind :=
  if v = 1 then some getField
  else if v = 2 then some getStatic
  else if v = 3 then some putField
  else if v = 4 then some putStatic
  else if v = 5 then some invokeVirtual
  else if v = 6 then some invokeStatic
  else if v = 7 then some invokeSpecial
  else if v = 8 then some newInvokeSpecial
  else if v = 9 then some invokeInterface
  else none

/-- Embeds `MethodHandleReferenceKind::iter()` in declaration order. -/
def allKinds : List MethodHandleReferenceKind :=
  [getField, getStatic, putField, putStatic, invokeVirtual, invokeStatic,
   invokeSpecial, newInvokeSpecial, invokeInterface]

end MethodHandleReferenceKind

/-- Embeds `CpInfo`: the 17 constant-pool entry variants.  The per-variant structs
(`CpUtf8`, `CpInteger`, ...) are flattened into constructor fields with the
same names.  `converted` is the Rust `String` built from the codec output. -/
inductive CpInfo : Type where
  | utf8 (bytes : List Nat) (converted : String)
  | integer (bytes : List Nat)
  | float (bytes : List Nat)
  | long (highBytes lowBytes : Nat)
  | double (highBytes lowBytes : Nat)
  | classInfo (nameIndex : Nat)
  | stringInfo (stringIndex : Nat)
  | fieldRef (classIndex nameAndTypeIndex : Nat)
  | methodRef (classIndex nameAndTypeIndex : Nat)
  | interfaceMethodRef (classIndex nameAndTypeIndex : Nat)
  | nameAndType (nameIndex descriptorIndex : Nat)
  | methodHandle (referenceKind : MethodHandleReferenceKind) (referenceIndex : Nat)
  | methodType (descriptorIndex : Nat)
  | dynamic (bootstrapMethodAttrIndex nameAndTypeIndex : Nat)
  | invokeDynamic (bootstrapMethodAttrIndex nameAndTypeIndex : Nat)
  | module (nameIndex : Nat)
  | package (nameIndex : Nat)
deriving DecidableEq

/-- The tag list of the unknown-tag error of `read_constant_pool_entry`,
in source order. -/
def cpAllTags : List Nat := [1, 3, 4, 5, 6, 7, 8, 9, 10, 11, 12, 15, 16, 17, 18, 19, 20]

/-- The tag-1 (UTF8) arm of `read_constant_pool_entry`: u16 length, that
many raw bytes, then the text codec; `converted` is the Rust `String`. -/
def cpUtf8P : M CpInfo := do
  let length ← readU16
  let bytes ← readN readU8 length
  match modified_utf8_to_string bytes with
  | .ok cps => pure (.utf8 bytes (String.mk (cps.map Char.ofNat)))
  | .error e => errM (.utf8 e)

/-- The tag-3 (Integer) arm: 4 raw bytes read one at a time. -/
def cpIntegerP : M CpInfo := do
  let bytes ← readN readU8 4
  pure (.integer bytes)

/-- The tag-4 (Float) arm. -/
def cpFloatP : M CpInfo := do
  let bytes ← readN readU8 4
  pure (.float bytes)

/-- The tag-5 (Long) arm. -/
def cpLongP : M CpInfo := do
  let highBytes ← readU32
  let lowBytes ← readU32
  pure (.long highBytes lowBytes)

/-- The tag-6 (Double) arm. -/
def cpDoubleP : M CpInfo := do
  let highBytes ← readU32
  let lowBytes ← readU32
  pure (.double highBytes lowBytes)

/-- The tag-7 (Class) arm. -/
def cpClassP : M CpInfo := do
  let nameIndex ← readU16
  pure (.classInfo nameIndex)

/-- The tag-8 (String) arm. -/
def cpStringP : M CpInfo := do
  let stringIndex ← readU16
  pure (.stringInfo stringIndex)

/-- The tag-9 (FieldRef) arm. -/
def cpFieldRefP : M CpInfo := do
  let classIndex ← readU16
  let nameAndTypeIndex ← readU16
  pure (.fieldRef classIndex nameAndTypeIndex)

/-- The tag-10 (MethodRef) arm. -/
def cpMethodRefP : M CpInfo := do
  let classIndex ← readU16
  let nameAndTypeIndex ← readU16
  pure (.methodRef classIndex nameAndTypeIndex)

/-- The tag-11 (InterfaceMethodRef) arm. -/
def cpInterfaceMethodRefP : M CpInfo := do
  let classIndex ← readU16
  let nameAndTypeIndex ← readU16
  pure (.interfaceMethodRef classIndex nameAndTypeIndex)

/-- The tag-12 (NameAndType) arm. -/
def cpNameAndTypeP : M CpInfo := do
  let nameIndex ← readU16
  let descriptorIndex ← readU16
  pure (.nameAndType nameIndex descriptorIndex)

/-- The tag-15 (MethodHandle) arm: the reference-kind byte must convert via
`TryFrom`, else the error lists all nine valid kinds and the read value. -/
def cpMethodHandleP : M CpInfo := do
  let referenceKindByte ← readU8
  match MethodHandleReferenceKind.tryFrom referenceKindByte with
  | some referenceKind => do
    let referenceIndex ← readU16
    pure (.methodHandle referenceKind referenceIndex)
  | none =>
    errM (.notOneOf ("CONSTANT_POOL_METHOD_HANDLE_REFERENCE_KIND") referenceKindByte
      (MethodHandleReferenceKind.allKinds.map MethodHandleReferenceKind.toNat))

/-- The tag-16 (MethodType) arm. -/
def cpMethodTypeP : M CpInfo := do
  let descriptorIndex ← readU16
  pure (.methodType descriptorIndex)

/-- The tag-17 (Dynamic) arm. -/
def cpDynamicP : M CpInfo := do
  let bootstrapMethodAttrIndex ← readU16
  let nameAndTypeIndex ← readU16
  pure (.dynamic bootstrapMethodAttrIndex nameAndTypeIndex)

/-- The tag-18 (InvokeDynamic) arm. -/
def cpInvokeDynamicP : M CpInfo := do
  let bootstrapMethodAttrIndex ← readU16
  let nameAndTypeIndex ← readU16
  pure (.invokeDynamic bootstrapMethodAttrIndex nameAndTypeIndex)

/-- The tag-19 (Module) arm. -/
def cpModuleP : M CpInfo := do
  let nameIndex ← readU16
  pure (.module nameIndex)

/-- The tag-20 (Package) arm. -/
def cpPackageP : M CpInfo := do
  let nameIndex ← readU16
  pure (.package nameIndex)

/-- Embeds `read_constant_pool_entry`: one-byte tag dispatch over the 17 variants.
The Rust `match` on tag constants is rendered as an if-chain in source
order, with each arm factored out as the parser named above. -/
def read_constant_pool_entry : M CpInfo := do
  let tag ← readU8
  if tag = 1 then cpUtf8P
  else if tag = 3 then cpIntegerP
  else if tag = 4 then cpFloatP
  else if tag = 5 then cpLongP
  else if tag = 6 then cpDoubleP
  else if tag = 7 then cpClassP
  else if tag = 8 then cpStringP
  else if tag = 9 then cpFieldRefP
  else if tag = 10 then cpMethodRefP
  else if tag = 11 then cpInterfaceMethodRefP
  else if tag = 12 then cpNameAndTypeP
  else if tag = 15 then cpMethodHandleP
  else if tag = 16 then cpMethodTypeP
  else if tag = 17 then cpDynamicP
  else if tag = 18 then cpInvokeDynamicP
  else if tag = 19 then cpModuleP
  else if tag = 20 then cpPackageP
  else errM (.notOneOf ("CONSTANT_POOL_TAG") tag cpAllTags)

/-- Embeds `read_constant_pool`: pushes the dummy entry, then decodes
`constant_pool_count - 1` entries.  The subtraction is u16 arithmetic: with
the release-profile wrapping semantics, `0 - 1` wraps to `65535` (a debug
build would panic on the overflow instead; either way a count of 0 does not
produce an empty pool). -/
def read_constant_pool (constant_pool_count : Nat) : M (List CpInfo) := do
  let entries ← readN read_constant_pool_entry ((constant_pool_count + 65535) % 65536)
  pure (CpInfo.integer [0, 0, 0, 0] :: entries)

/-! ## Verification types and stack-map frames -/

/-- Embeds `VerificationTypeInfo` (9 variants, tags 0–8). -/
inductive VerificationTypeInfo : Type where
  | topVariable
  | integerVariable
  | floatVariable
  | nullVariable
  | uninitializedThisVariable
  | objectVariable (cpoolIndex : Nat)
  | uninitializedVariable (offset : Nat)
  | longVariable
  | doubleVariable
deriving DecidableEq

/-- Embeds `StackMapFrame` (7 variants selected by tag ranges / exact tags). -/
inductive StackMapFrame : Type where
  | sameFrame (frameType : Nat)
  | sameLocals1StackItemFrame (frameType : Nat) (stackEntry : VerificationTypeInfo)
  | sameLocals1StackItemFrameExtended (frameType offsetDelta : Nat)
      (stackEntry : VerificationTypeInfo)
  | chopFrame (frameType offsetDelta : Nat)
  | sameFrameExtended (frameType offsetDelta : Nat)
  | appendFrame (frameType offsetDelta : Nat) (locals : List VerificationTypeInfo)
  | fullFrame (frameType offsetDelta : Nat) (locals stack : List VerificationTypeInfo)
deriving DecidableEq

/-- Embeds `read_verification_type_info`: one-byte exact-tag dispatch.  Source tag
order preserved (0,1,2,5,6,7,8,4,3). -/
def read_verification_type_info : M VerificationTypeInfo := do
  let tag ← readU8
  if tag = 0 then pure .topVariable
  else if tag = 1 then pure .integerVariable
  else if tag = 2 then pure .floatVariable
  else if tag = 5 then pure .nullVariable
  else if tag = 6 then pure .uninitializedThisVariable
  else if tag = 7 then do
    let cpoolIndex ← readU16
    pure (.objectVariable cpoolIndex)
  else if tag = 8 then do
    let offset ← readU16
    pure (.uninitializedVariable offset)
  else if tag = 4 then pure .longVariable
  else if tag = 3 then pure .doubleVariable
  else errM (.unknownVerificationTag tag)

/-- Embeds `read_stack_map_frame`: range/exact dispatch on `frame_type`, arms in
source order. -/
def read_stack_map_frame : M StackMapFrame := do
  let frameType ← readU8
  if frameType ≤ 63 then
    pure (.sameFrame frameType)
  else if 64 ≤ frameType ∧ frameType ≤ 127 then do
    let stackEntry ← read_verification_type_info
    pure (.sameLocals1StackItemFrame frameType stackEntry)
  else if frameType = 247 then do
    let offsetDelta ← readU16
    let stackEntry ← read_verification_type_info
    pure (.sameLocals1StackItemFrameExtended frameType offsetDelta stackEntry)
  else if 248 ≤ frameType ∧ frameType ≤ 250 then do
    let offsetDelta ← readU16
    pure (.chopFrame frameType offsetDelta)
  else if frameType = 251 then do
    let offsetDelta ← readU16
    pure (.sameFrameExtended frameType offsetDelta)
  else if 252 ≤ frameType ∧ frameType ≤ 254 then do
    let offsetDelta ← readU16
    let locals ← readN read_verification_type_info (frameType - 251)
    pure (.appendFrame frameType offsetDelta locals)
  else if frameType = 255 then do
    let offsetDelta ← readU16
    let numberOfLocals ← readU16
    let locals ← readN read_verification_type_info numberOfLocals
    let numberOfStackItems ← readU16
    let stack ← readN read_verification_type_info numberOfStackItems
    pure (.fullFrame frameType offsetDelta locals stack)
  else errM (.unknownFrameType frameType)

/-! ## Annotations, element values, type annotations -/

/-- Embeds `AttributeAnnotationsElementValue` (13 variants, ASCII tag dispatch).
The nested `AttributeRuntimeAnnotationsEntry` of the `@` variant is
flattened into the `annotationInterface` fields; an element-value pair is a
`(element_name_index, element_value)` pair. -/
inductive ElemVal : Type where
  | byteV (constValueIndex : Nat)
  | charV (constValueIndex : Nat)
  | doubleV (constValueIndex : Nat)
  | floatV (constValueIndex : Nat)
  | intV (constValueIndex : Nat)
  | longV (constValueIndex : Nat)
  | shortV (constValueIndex : Nat)
  | booleanV (constValueIndex : Nat)
  | stringV (constValueIndex : Nat)
  | enumClass (typeNameIndex constNameIndex : Nat)
  | classV (classInfoIndex : Nat)
  | annotationInterface (typeIndex : Nat) (elementValuePairs : List (Nat × ElemVal))
  | arrayType (values : List ElemVal)

/-- Embeds `AttributeRuntimeAnnotationsEntry`. -/
structure AnnotationEntry : Type where
  typeIndex : Nat
  elementValuePairs : List (Nat × ElemVal)

/-- Embeds `AttributeRuntimeTypeAnnotationsEntryTargetInfo` (10 shapes). -/
inductive TargetInfo : Type where
  | typeParameterTarget (typeParameterIndex : Nat)
  | superTypeTarget (supertypeIndex : Nat)
  | typeParameterBoundTarget (typeParameterIndex boundIndex : Nat)
  | emptyTarget
  | formalParameterTarget (formalParameterIndex : Nat)
  | throwsTarget (throwsTypeIndex : Nat)
  | localvarTarget (table : List (Nat × Nat × Nat))
  | catchTarget (exceptionTableIndex : Nat)
  | offsetTarget (offset : Nat)
  | typeArgumentTarget (offset typeArgumentIndex : Nat)
deriving DecidableEq

/-- Embeds `AttributeRuntimeTypeAnnotationsEntry`; a target-path entry is a
`(type_path_kind, type_argument_index)` pair. -/
structure TypeAnnotationEntry : Type where
  targetType : Nat
  targetInfo : TargetInfo
  targetPath : List (Nat × Nat)
  typeIndex : Nat
  elementValuePairs : List (Nat × ElemVal)

/-- Embeds `read_annotations_element_value_pair`, with the recursive element-value
decoder passed in as `recEV`. -/
def read_annotations_element_value_pairOf (recEV : M ElemVal) : M (Nat × ElemVal) := do
  let elementNameIndex ← readU16
  let elementValue ← recEV
  pure (elementNameIndex, elementValue)

/-- Embeds `read_runtime_annotations_entry`, with the recursive element-value
decoder passed in as `recEV`. -/
def read_runtime_annotations_entryOf (recEV : M ElemVal) : M AnnotationEntry := do
  let typeIndex ← readU16
  let numElementValuePairs ← readU16
  let elementValuePairs ← readN (read_annotations_element_value_pairOf recEV) numElementValuePairs
  pure ⟨typeIndex, elementValuePairs⟩

/-- The body of `read_annotations_element_value`, with the recursive
occurrences passed in as `recEV` (the `@` arm goes through
`read_runtime_annotations_entry`, the `[` arm recurses directly).  Tag
dispatch in source order on the ASCII byte values. -/
def read_annotations_element_valueBody (recEV : M ElemVal) : M ElemVal := do
  let tag ← readU8
  if tag = Char.toNat 'B' then do
    let constValueIndex ← readU16
    pure (.byteV constValueIndex)
  else if tag = Char.toNat 'C' then do
    let constValueIndex ← readU16
    pure (.charV constValueIndex)
  else if tag = Char.toNat 'D' then do
    let constValueIndex ← readU16
    pure (.doubleV constValueIndex)
  else if tag = Char.toNat 'F' then do
    let constValueIndex ← readU16
    pure (.floatV constValueIndex)
  else if tag = Char.toNat 'I' then do
    let constValueIndex ← readU16
    pure (.intV constValueIndex)
  else if tag = Char.toNat 'J' then do
    let constValueIndex ← readU16
    pure (.longV constValueIndex)
  else if tag = Char.toNat 'S' then do
    let constValueIndex ← readU16
    pure (.shortV constValueIndex)
  else if tag = Char.toNat 'Z' then do
    let constValueIndex ← readU16
    pure (.booleanV constValueIndex)
  else if tag = Char.toNat 's' then do
    let constValueIndex ← readU16
    pure (.stringV constValueIndex)
  else if tag = Char.toNat 'e' then do
    let typeNameIndex ← readU16
    let constNameIndex ← readU16
    pure (.enumClass typeNameIndex constNameIndex)
  else if tag = Char.toNat 'c' then do
    let classInfoIndex ← readU16
    pure (.classV classInfoIndex)
  else if tag = Char.toNat '@' then do
    let annotationValue ← read_runtime_annotations_entryOf recEV
    pure (.annotationInterface annotationValue.typeIndex annotationValue.elementValuePairs)
  else if tag = Char.toNat '[' then do
    let numValues ← readU16
    let values ← readN recEV numValues
    pure (.arrayType values)
  else errM (.unknownElementValueTag tag)

/-- Embeds `read_annotations_element_value`, fuelled: each nesting level of the
recursion consumes at least the one tag byte, so fuel `input.length + 1`
(supplied by the wrappers) cannot run out; running out is rendered as the
exhaustion error. -/
def read_annotations_element_valueF : Nat → M ElemVal
  | 0 => errM .exhaustion
  | f + 1 => read_annotations_element_valueBody (read_annotations_element_valueF f)

/-- One entry of the localvar-target table (u16 start_pc, u16 length,
u16 index). -/
def localvarTargetTableEntryP : M (Nat × Nat × Nat) := do
  let startPc ← readU16
  let length ← readU16
  let index ← readU16
  pure (startPc, length, index)

/-- One target-path entry (u8 kind, u8 argument index). -/
def targetPathEntryP : M (Nat × Nat) := do
  let typePathKind ← readU8
  let typeArgumentIndex ← readU8
  pure (typePathKind, typeArgumentIndex)

/-- The `target_type` dispatch (the `match target_type` of
`read_runtime_type_annotations_entry`), arms in source order. -/
def readTargetInfo (targetType : Nat) : M TargetInfo :=
  if targetType = 0x00 ∨ targetType = 0x01 then do
    let typeParameterIndex ← readU8
    pure (TargetInfo.typeParameterTarget typeParameterIndex)
  else if targetType = 0x10 then do
    let supertypeIndex ← readU16
    pure (TargetInfo.superTypeTarget supertypeIndex)
  else if targetType = 0x11 ∨ targetType = 0x12 then do
    let typeParameterIndex ← readU8
    let boundIndex ← readU8
    pure (TargetInfo.typeParameterBoundTarget typeParameterIndex boundIndex)
  else if targetType = 0x13 ∨ targetType = 0x14 ∨ targetType = 0x15 then
    pure TargetInfo.emptyTarget
  else if targetType = 0x16 then do
    let formalParameterIndex ← readU8
    pure (TargetInfo.formalParameterTarget formalParameterIndex)
  else if targetType = 0x17 then do
    let throwsTypeIndex ← readU16
    pure (TargetInfo.throwsTarget throwsTypeIndex)
  else if targetType = 0x40 ∨ targetType = 0x41 then do
    let tableLength ← readU16
    let table ← readN localvarTargetTableEntryP tableLength
    pure (TargetInfo.localvarTarget table)
  else if targetType = 0x42 then do
    let exceptionTableIndex ← readU16
    pure (TargetInfo.catchTarget exceptionTableIndex)
  else if targetType = 0x43 ∨ targetType = 0x44 ∨ targetType = 0x45 ∨ targetType = 0x46 then do
    let offset ← readU16
    pure (TargetInfo.offsetTarget offset)
  else if targetType = 0x47 ∨ targetType = 0x48 ∨ targetType = 0x49 ∨
      targetType = 0x4A ∨ targetType = 0x4B then do
    let offset ← readU16
    let typeArgumentIndex ← readU8
    pure (TargetInfo.typeArgumentTarget offset typeArgumentIndex)
  else errM (.unknownTargetType targetType)

/-- Embeds `read_runtime_type_annotations_entry`, with the element-value decoder
passed in as `recEV`: `target_type` dispatch, then the target path, then the
annotation body. -/
def read_runtime_type_annotations_entryOf (recEV : M ElemVal) : M TypeAnnotationEntry := do
  let targetType ← readU8
  let targetInfo ← readTargetInfo targetType
  let pathLength ← readU8
  let targetPath ← readN targetPathEntryP pathLength
  let typeIndex ← readU16
  let numElementValuePairs ← readU16
  let elementValuePairs ← readN (read_annotations_element_value_pairOf recEV) numElementValuePairs
  pure ⟨targetType, targetInfo, targetPath, typeIndex, elementValuePairs⟩

/-! ## Attributes -/

/-- Embeds `ExceptionTableEntry` of the Code attribute. -/
structure ExceptionTableEntry : Type where
  startPc : Nat
  endPc : Nat
  handlerPc : Nat
  catchType : Nat
deriving DecidableEq

/-- Embeds `AttributeInnerClassesClass`. -/
structure InnerClassesClass : Type where
  innerClassInfoIndex : Nat
  outerClassInfoIndex : Nat
  innerNameIndex : Nat
  innerClassAccessFlags : Nat
deriving DecidableEq

/-- Embeds `AttributeLineNumberTableEntry`. -/
structure LineNumberTableEntry : Type where
  startPc : Nat
  lineNumber : Nat
deriving DecidableEq

/-- Embeds `AttributeLocalVariableTableEntry`. -/
structure LocalVariableTableEntry : Type where
  startPc : Nat
  length : Nat
  nameIndex : Nat
  descriptorIndex : Nat
  index : Nat
deriving DecidableEq

/-- Embeds `AttributeLocalVariableTypeTableEntry`. -/
structure LocalVariableTypeTableEntry : Type where
  startPc : Nat
  length : Nat
  nameIndex : Nat
  signatureIndex : Nat
  index : Nat
deriving DecidableEq

/-- Embeds `AttributeBootstrapMethodsEntry`. -/
structure BootstrapMethodsEntry : Type where
  bootstrapMethodRef : Nat
  bootstrapArguments : List Nat
deriving DecidableEq

/-- Embeds `AttributeMethodParametersEntry`. -/
structure MethodParametersEntry : Type where
  nameIndex : Nat
  accessFlags : Nat
deriving DecidableEq

/-- Embeds `AttributeModuleRequiresEntry`. -/
structure ModuleRequiresEntry : Type where
  requiresIndex : Nat
  requiresFlags : Nat
  requiresVersionIndex : Nat
deriving DecidableEq

/-- Embeds `AttributeModuleExportsEntry`. -/
structure ModuleExportsEntry : Type where
  exportsIndex : Nat
  exportsFlags : Nat
  exportsToIndex : List Nat
deriving DecidableEq

/-- Embeds `AttributeModuleOpensEntry`. -/
structure ModuleOpensEntry : Type where
  opensIndex : Nat
  opensFlags : Nat
  opensToIndex : List Nat
deriving DecidableEq

/-- Embeds `AttributeModuleProvidesEntry`. -/
structure ModuleProvidesEntry : Type where
  providesIndex : Nat
  providesWithIndex : List Nat
deriving DecidableEq

/-- Embeds `AttributeInfo`: the 30 attribute variants, with the per-variant structs
flattened into constructor fields.  A Record component
(`AttributeRecordComponentInfo`) is flattened to a
`(name_index, descriptor_index, attributes)` triple. -/
inductive AttributeInfo : Type where
  | constantValue (constantvalueIndex : Nat)
  | code (attributeLength maxStack maxLocals : Nat) (codeBytes : List Nat)
      (exceptionTable : List ExceptionTableEntry) (attributes : List AttributeInfo)
  | stackMapTable (attributeLength : Nat) (entries : List StackMapFrame)
  | exceptions (attributeLength : Nat) (exceptionIndexTable : List Nat)
  | innerClasses (attributeLength : Nat) (classes : List InnerClassesClass)
  | enclosingMethod (classIndex methodIndex : Nat)
  | synthetic
  | signature (signatureIndex : Nat)
  | sourceFile (sourcefileIndex : Nat)
  | sourceDebugExtension (debugExtension : List Nat)
  | lineNumberTable (attributeLength : Nat) (lineNumberTableEntries : List LineNumberTableEntry)
  | localVariableTable (attributeLength : Nat)
      (localVariableTableEntries : List LocalVariableTableEntry)
  | localVariableTypeTable (attributeLength : Nat)
      (localVariableTableEntries : List LocalVariableTypeTableEntry)
  | deprecated
  | runtimeVisibleAnnotations (attributeLength : Nat) (annotations : List AnnotationEntry)
  | runtimeInvisibleAnnotations (attributeLength : Nat) (annotations : List AnnotationEntry)
  | runtimeVisibleParameterAnnotations (attributeLength : Nat)
      (parameterAnnotations : List (List AnnotationEntry))
  | runtimeInvisibleParameterAnnotations (attributeLength : Nat)
      (parameterAnnotations : List (List AnnotationEntry))
  | runtimeVisibleTypeAnnotations (attributeLength : Nat)
      (annotations : List TypeAnnotationEntry)
  | runtimeInvisibleTypeAnnotations (attributeLength : Nat)
      (annotations : List TypeAnnotationEntry)
  | annotationDefault (attributeLength : Nat) (defaultValue : ElemVal)
  | bootstrapMethods (attributeLength : Nat) (bootstrapMethodsEntries : List BootstrapMethodsEntry)
  | methodParameters (attributeLength : Nat) (parameters : List MethodParametersEntry)
  | moduleAttr (attributeLength moduleNameIndex moduleFlags moduleVersionIndex : Nat)
      (requiresEntries : List ModuleRequiresEntry) (exports : List ModuleExportsEntry)
      (opens : List ModuleOpensEntry) (usesIndex : List Nat)
      (provides : List ModuleProvidesEntry)
  | modulePackages (attributeLength : Nat) (packageIndex : List Nat)
  | moduleMainClass (mainClassIndex : Nat)
  | nestHost (hostClassIndex : Nat)
  | nestMembers (attributeLength : Nat) (classes : List Nat)
  | record (attributeLength : Nat) (components : List (Nat × Nat × List AttributeInfo))
  | permittedSubclasses (attributeLength : Nat) (classes : List Nat)

/-- Embeds `FieldInfo`. -/
structure FieldInfo : Type where
  accessFlags : Nat
  nameIndex : Nat
  descriptorIndex : Nat
  attributes : List AttributeInfo

/-- Embeds `MethodInfo`. -/
structure MethodInfo : Type where
  accessFlags : Nat
  nameIndex : Nat
  descriptorIndex : Nat
  attributes : List AttributeInfo

/-- Embeds `ClassFile`. -/
structure ClassFile : Type where
  magic : Nat
  minorVersion : Nat
  majorVersion : Nat
  constantPoolCount : Nat
  constantPool : List CpInfo
  accessFlags : Nat
  thisClass : Nat
  superClass : Nat
  interfaces : List Nat
  fields : List FieldInfo
  methods : List MethodInfo
  attributes : List AttributeInfo

/-- Loop body of the Code attribute's exception-table loop. -/
def exceptionTableEntryP : M ExceptionTableEntry := do
  let startPc ← readU16
  let endPc ← readU16
  let handlerPc ← readU16
  let catchType ← readU16
  pure ⟨startPc, endPc, handlerPc, catchType⟩

/-- Loop body of the InnerClasses attribute's class loop. -/
def innerClassP : M InnerClassesClass := do
  let innerClassInfoIndex ← readU16
  let outerClassInfoIndex ← readU16
  let innerNameIndex ← readU16
  let innerClassAccessFlags ← readU16
  pure ⟨innerClassInfoIndex, outerClassInfoIndex, innerNameIndex, innerClassAccessFlags⟩

/-- Loop body of the LineNumberTable attribute. -/
def lineNumberTableEntryP : M LineNumberTableEntry := do
  let startPc ← readU16
  let lineNumber ← readU16
  pure ⟨startPc, lineNumber⟩

/-- Loop body of the LocalVariableTable attribute. -/
def localVariableTableEntryP : M LocalVariableTableEntry := do
  let startPc ← readU16
  let length ← readU16
  let nameIndex ← readU16
  let descriptorIndex ← readU16
  let index ← readU16
  pure ⟨startPc, length, nameIndex, descriptorIndex, index⟩

/-- Loop body of the LocalVariableTypeTable attribute. -/
def localVariableTypeTableEntryP : M LocalVariableTypeTableEntry := do
  let startPc ← readU16
  let length ← readU16
  let nameIndex ← readU16
  let signatureIndex ← readU16
  let index ← readU16
  pure ⟨startPc, length, nameIndex, signatureIndex, index⟩

/-- Per-parameter loop body of the parameter-annotation attributes: a u16
annotation count followed by that many annotation entries. -/
def parameterAnnotationsGroupOf (recEV : M ElemVal) : M (List AnnotationEntry) := do
  let numAnnotations ← readU16
  readN (read_runtime_annotations_entryOf recEV) numAnnotations

/-- Loop body of the BootstrapMethods attribute. -/
def bootstrapMethodsEntryP : M BootstrapMethodsEntry := do
  let bootstrapMethodRef ← readU16
  let numBootstrapArguments ← readU16
  let bootstrapArguments ← readN readU16 numBootstrapArguments
  pure ⟨bootstrapMethodRef, bootstrapArguments⟩

/-- Loop body of the MethodParameters attribute. -/
def methodParametersEntryP : M MethodParametersEntry := do
  let nameIndex ← readU16
  let accessFlags ← readU16
  pure ⟨nameIndex, accessFlags⟩

/-- Loop body of the Module attribute's requires loop. -/
def moduleRequiresEntryP : M ModuleRequiresEntry := do
  let requiresIndex ← readU16
  let requiresFlags ← readU16
  let requiresVersionIndex ← readU16
  pure ⟨requiresIndex, requiresFlags, requiresVersionIndex⟩

/-- Loop body of the Module attribute's exports loop. -/
def moduleExportsEntryP : M ModuleExportsEntry := do
  let exportsIndex ← readU16
  let exportsFlags ← readU16
  let exportsToCount ← readU16
  let exportsToIndex ← readN readU16 exportsToCount
  pure ⟨exportsIndex, exportsFlags, exportsToIndex⟩

/-- Loop body of the Module attribute's opens loop. -/
def moduleOpensEntryP : M ModuleOpensEntry := do
  let opensIndex ← readU16
  let opensFlags ← readU16
  let opensToCount ← readU16
  let opensToIndex ← readN readU16 opensToCount
  pure ⟨opensIndex, opensFlags, opensToIndex⟩

/-- Loop body of the Module attribute's provides loop. -/
def moduleProvidesEntryP : M ModuleProvidesEntry := do
  let providesIndex ← readU16
  let providesWithCount ← readU16
  let providesWithIndex ← readN readU16 providesWithCount
  pure ⟨providesIndex, providesWithIndex⟩

/-- Loop body of the Record attribute's component loop, with the recursive
attribute decoder passed in as `recAttr`. -/
def recordComponentOf (recAttr : M AttributeInfo) : M (Nat × Nat × List AttributeInfo) := do
  let nameIndex ← readU16
  let descriptorIndex ← readU16
  let attributesCount ← readU16
  let attributes ← readN recAttr attributesCount
  pure (nameIndex, descriptorIndex, attributes)

/-- The ConstantValue arm of `read_attribute`. -/
def attrConstantValueP : M AttributeInfo := do
  let constantvalueIndex ← readU16
  pure (.constantValue constantvalueIndex)

/-- The Code arm: fixed fields, raw code bytes, exception table, then a
nested attribute sequence through `recAttr`. -/
def attrCodeOf (recAttr : M AttributeInfo) (attributeLength : Nat) : M AttributeInfo := do
  let maxStack ← readU16
  let maxLocals ← readU16
  let codeLength ← readU32
  let codeBytes ← readN readU8 codeLength
  let exceptionTableLength ← readU16
  let exceptionTable ← readN exceptionTableEntryP exceptionTableLength
  let attributesCount ← readU16
  let attributes ← readN recAttr attributesCount
  pure (.code attributeLength maxStack maxLocals codeBytes exceptionTable attributes)

/-- The StackMapTable arm. -/
def attrStackMapTableP (attributeLength : Nat) : M AttributeInfo := do
  let numberOfEntries ← readU16
  let entries ← readN read_stack_map_frame numberOfEntries
  pure (.stackMapTable attributeLength entries)

/-- The Exceptions arm. -/
def attrExceptionsP (attributeLength : Nat) : M AttributeInfo := do
  let numberOfExceptions ← readU16
  let exceptionIndexTable ← readN readU16 numberOfExceptions
  pure (.exceptions attributeLength exceptionIndexTable)

/-- The InnerClasses arm. -/
def attrInnerClassesP (attributeLength : Nat) : M AttributeInfo := do
  let numberOfClasses ← readU16
  let classes ← readN innerClassP numberOfClasses
  pure (.innerClasses attributeLength classes)

/-- The EnclosingMethod arm. -/
def attrEnclosingMethodP : M AttributeInfo := do
  let classIndex ← readU16
  let methodIndex ← readU16
  pure (.enclosingMethod classIndex methodIndex)

/-- The Signature arm. -/
def attrSignatureP : M AttributeInfo := do
  let signatureIndex ← readU16
  pure (.signature signatureIndex)

/-- The SourceFile arm. -/
def attrSourceFileP : M AttributeInfo := do
  let sourcefileIndex ← readU16
  pure (.sourceFile sourcefileIndex)

/-- The SourceDebugExtension arm: `attribute_length` raw bytes. -/
def attrSourceDebugExtensionP (attributeLength : Nat) : M AttributeInfo := do
  let debugExtension ← readN readU8 attributeLength
  pure (.sourceDebugExtension debugExtension)

/-- The LineNumberTable arm. -/
def attrLineNumberTableP (attributeLength : Nat) : M AttributeInfo := do
  let lineNumberTableLength ← readU16
  let lineNumberTableEntries ← readN lineNumberTableEntryP lineNumberTableLength
  pure (.lineNumberTable attributeLength lineNumberTableEntries)

/-- The LocalVariableTable arm. -/
def attrLocalVariableTableP (attributeLength : Nat) : M AttributeInfo := do
  let localVariableTableLength ← readU16
  let localVariableTableEntries ← readN localVariableTableEntryP localVariableTableLength
  pure (.localVariableTable attributeLength localVariableTableEntries)

/-- The LocalVariableTypeTable arm (selected, in the source, by the string
`"LocalVariableTypeTableEntry"`). -/
def attrLocalVariableTypeTableP (attributeLength : Nat) : M AttributeInfo := do
  let localVariableTableLength ← readU16
  let localVariableTableEntries ← readN localVariableTypeTableEntryP localVariableTableLength
  pure (.localVariableTypeTable attributeLength localVariableTableEntries)

/-- The RuntimeVisibleAnnotations arm. -/
def attrRuntimeVisibleAnnotationsOf (recEV : M ElemVal) (attributeLength : Nat) :
    M AttributeInfo := do
  let numAnnotations ← readU16
  let annotations ← readN (read_runtime_annotations_entryOf recEV) numAnnotations
  pure (.runtimeVisibleAnnotations attributeLength annotations)

/-- The RuntimeInvisibleAnnotations arm. -/
def attrRuntimeInvisibleAnnotationsOf (recEV : M ElemVal) (attributeLength : Nat) :
    M AttributeInfo := do
  let numAnnotations ← readU16
  let annotations ← readN (read_runtime_annotations_entryOf recEV) numAnnotations
  pure (.runtimeInvisibleAnnotations attributeLength annotations)

/-- The RuntimeVisibleParameterAnnotations arm (u8 parameter count). -/
def attrRuntimeVisibleParameterAnnotationsOf (recEV : M ElemVal) (attributeLength : Nat) :
    M AttributeInfo := do
  let numParameters ← readU8
  let parameterAnnotations ← readN (parameterAnnotationsGroupOf recEV) numParameters
  pure (.runtimeVisibleParameterAnnotations attributeLength parameterAnnotations)

/-- The RuntimeInvisibleParameterAnnotations arm. -/
def attrRuntimeInvisibleParameterAnnotationsOf (recEV : M ElemVal) (attributeLength : Nat) :
    M AttributeInfo := do
  let numParameters ← readU8
  let parameterAnnotations ← readN (parameterAnnotationsGroupOf recEV) numParameters
  pure (.runtimeInvisibleParameterAnnotations attributeLength parameterAnnotations)

/-- The RuntimeVisibleTypeAnnotations arm. -/
def attrRuntimeVisibleTypeAnnotationsOf (recEV : M ElemVal) (attributeLength : Nat) :
    M AttributeInfo := do
  let numAnnotations ← readU16
  let annotations ← readN (read_runtime_type_annotations_entryOf recEV) numAnnotations
  pure (.runtimeVisibleTypeAnnotations attributeLength annotations)

/-- The RuntimeInvisibleTypeAnnotations arm. -/
def attrRuntimeInvisibleTypeAnnotationsOf (recEV : M ElemVal) (attributeLength : Nat) :
    M AttributeInfo := do
  let numAnnotations ← readU16
  let annotations ← readN (read_runtime_type_annotations_entryOf recEV) numAnnotations
  pure (.runtimeInvisibleTypeAnnotations attributeLength annotations)

/-- The AnnotationDefault arm. -/
def attrAnnotationDefaultOf (recEV : M ElemVal) (attributeLength : Nat) : M AttributeInfo := do
  let defaultValue ← recEV
  pure (.annotationDefault attributeLength defaultValue)

/-- The BootstrapMethods arm. -/
def attrBootstrapMethodsP (attributeLength : Nat) : M AttributeInfo := do
  let numBootstrapMethods ← readU16
  let bootstrapMethodsEntries ← readN bootstrapMethodsEntryP numBootstrapMethods
  pure (.bootstrapMethods attributeLength bootstrapMethodsEntries)

/-- The MethodParameters arm (u8 parameter count). -/
def attrMethodParametersP (attributeLength : Nat) : M AttributeInfo := do
  let parametersCount ← readU8
  let parameters ← readN methodParametersEntryP parametersCount
  pure (.methodParameters attributeLength parameters)

/-- The Module arm: five count-prefixed groups plus the uses list. -/
def attrModuleP (attributeLength : Nat) : M AttributeInfo := do
  let moduleNameIndex ← readU16
  let moduleFlags ← readU16
  let moduleVersionIndex ← readU16
  let requiresCount ← readU16
  let requiresEntries ← readN moduleRequiresEntryP requiresCount
  let exportsCount ← readU16
  let exports ← readN moduleExportsEntryP exportsCount
  let opensCount ← readU16
  let opens ← readN moduleOpensEntryP opensCount
  let usesCount ← readU16
  let usesIndex ← readN readU16 usesCount
  let providesCount ← readU16
  let provides ← readN moduleProvidesEntryP providesCount
  pure (.moduleAttr attributeLength moduleNameIndex moduleFlags moduleVersionIndex
    requiresEntries exports opens usesIndex provides)

/-- The ModulePackages arm. -/
def attrModulePackagesP (attributeLength : Nat) : M AttributeInfo := do
  let packageCount ← readU16
  let packageIndex ← readN readU16 packageCount
  pure (.modulePackages attributeLength packageIndex)

/-- The ModuleMainClass arm. -/
def attrModuleMainClassP : M AttributeInfo := do
  let mainClassIndex ← readU16
  pure (.moduleMainClass mainClassIndex)

/-- The NestHost arm. -/
def attrNestHostP : M AttributeInfo := do
  let hostClassIndex ← readU16
  pure (.nestHost hostClassIndex)

/-- The NestMembers arm. -/
def attrNestMembersP (attributeLength : Nat) : M AttributeInfo := do
  let numberOfClasses ← readU16
  let classes ← readN readU16 numberOfClasses
  pure (.nestMembers attributeLength classes)

/-- The Record arm: component list with nested attributes through
`recAttr`. -/
def attrRecordOf (recAttr : M AttributeInfo) (attributeLength : Nat) : M AttributeInfo := do
  let componentsCount ← readU16
  let components ← readN (recordComponentOf recAttr) componentsCount
  pure (.record attributeLength components)

/-- The PermittedSubclasses arm. -/
def attrPermittedSubclassesP (attributeLength : Nat) : M AttributeInfo := do
  let numberOfClasses ← readU16
  let classes ← readN readU16 numberOfClasses
  pure (.permittedSubclasses attributeLength classes)

/-- The attribute-name dispatch of `read_attribute` (the Rust `match` on the
resolved name string), arms in source order; the name constant the source
uses for the LocalVariableTypeTable attribute is
`"LocalVariableTypeTableEntry"`.  An unmatched name is the unknown-name
error. -/
def attrDispatch (recAttr : M AttributeInfo) (recEV : M ElemVal)
    (converted : String) (attributeLength : Nat) : M AttributeInfo :=
  if converted = "ConstantValue" then attrConstantValueP
  else if converted = "Code" then attrCodeOf recAttr attributeLength
  else if converted = "StackMapTable" then attrStackMapTableP attributeLength
  else if converted = "Exceptions" then attrExceptionsP attributeLength
  else if converted = "InnerClasses" then attrInnerClassesP attributeLength
  else if converted = "EnclosingMethod" then attrEnclosingMethodP
  else if converted = "Synthetic" then pure .synthetic
  else if converted = "Signature" then attrSignatureP
  else if converted = "SourceFile" then attrSourceFileP
  else if converted = "SourceDebugExtension" then attrSourceDebugExtensionP attributeLength
  else if converted = "LineNumberTable" then attrLineNumberTableP attributeLength
  else if converted = "LocalVariableTable" then attrLocalVariableTableP attributeLength
  else if converted = "LocalVariableTypeTableEntry" then
    attrLocalVariableTypeTableP attributeLength
  else if converted = "Deprecated" then pure .deprecated
  else if converted = "RuntimeVisibleAnnotations" then
    attrRuntimeVisibleAnnotationsOf recEV attributeLength
  else if converted = "RuntimeInvisibleAnnotations" then
    attrRuntimeInvisibleAnnotationsOf recEV attributeLength
  else if converted = "RuntimeVisibleParameterAnnotations" then
    attrRuntimeVisibleParameterAnnotationsOf recEV attributeLength
  else if converted = "RuntimeInvisibleParameterAnnotations" then
    attrRuntimeInvisibleParameterAnnotationsOf recEV attributeLength
  else if converted = "RuntimeVisibleTypeAnnotations" then
    attrRuntimeVisibleTypeAnnotationsOf recEV attributeLength
  else if converted = "RuntimeInvisibleTypeAnnotations" then
    attrRuntimeInvisibleTypeAnnotationsOf recEV attributeLength
  else if converted = "AnnotationDefault" then attrAnnotationDefaultOf recEV attributeLength
  else if converted = "BootstrapMethods" then attrBootstrapMethodsP attributeLength
  else if converted = "MethodParameters" then attrMethodParametersP attributeLength
  else if converted = "Module" then attrModuleP attributeLength
  else if converted = "ModulePackages" then attrModulePackagesP attributeLength
  else if converted = "ModuleMainClass" then attrModuleMainClassP
  else if converted = "NestHost" then attrNestHostP
  else if converted = "NestMembers" then attrNestMembersP attributeLength
  else if converted = "Record" then attrRecordOf recAttr attributeLength
  else if converted = "PermittedSubclasses" then attrPermittedSubclassesP attributeLength
  else errM (.unknownAttributeName converted)

/-- The body of `read_attribute`, with the recursive occurrences passed in:
`recAttr` for the nested attribute sequences of the Code and Record arms,
`recEV` for the annotation element values.  Reads the u16 name index and the
u32 declared length, resolves the name through the pool (an out-of-range
index is the Rust `Vec` index panic, modelled by `crashM`; a non-UTF8 entry
is an error), then dispatches on the decoded name string. -/
def readAttrBody (recAttr : M AttributeInfo) (recEV : M ElemVal)
    (constant_pool : List CpInfo) : M AttributeInfo := do
  let attributeNameIndex ← readU16
  let attributeLength ← readU32
  match constant_pool[attributeNameIndex]? with
  | none => crashM
  | some (.utf8 _bytes converted) => attrDispatch recAttr recEV converted attributeLength
  | some _ => errM (.attrNameNotUtf8 attributeNameIndex)

/-- Embeds `read_attribute`, fuelled: the fuel bounds the nesting depth of the
Code/Record attribute recursion; each level first consumes the six header
bytes, so fuel `input.length + 1` cannot run out. -/
def readAttrF : Nat → List CpInfo → M AttributeInfo
  | 0, _ => errM .exhaustion
  | f + 1, constant_pool =>
    readAttrBody (readAttrF f constant_pool) (read_annotations_element_valueF f) constant_pool

/-- Embeds `read_attribute` (entry point, fuel supplied from the input length). -/
def read_attribute (constant_pool : List CpInfo) : M AttributeInfo := fun l =>
  readAttrF (l.length + 1) constant_pool l

/-- Embeds `read_field` (its `read_attributes` loop inlined as `readN`). -/
def read_fieldF (f : Nat) (constant_pool : List CpInfo) : M FieldInfo := do
  let accessFlags ← readU16
  let nameIndex ← readU16
  let descriptorIndex ← readU16
  let attributesCount ← readU16
  let attributes ← readN (readAttrF f constant_pool) attributesCount
  pure ⟨accessFlags, nameIndex, descriptorIndex, attributes⟩

/-- Embeds `read_method`. -/
def read_methodF (f : Nat) (constant_pool : List CpInfo) : M MethodInfo := do
  let accessFlags ← readU16
  let nameIndex ← readU16
  let descriptorIndex ← readU16
  let attributesCount ← readU16
  let attributes ← readN (readAttrF f constant_pool) attributesCount
  pure ⟨accessFlags, nameIndex, descriptorIndex, attributes⟩

/-- The body of `parse_class_file` at a given fuel: magic check, versions,
constant pool, flags and indices, interfaces, fields, methods, top-level
attributes. -/
def parseF (f : Nat) : M ClassFile := do
  let magic ← readU32
  if magic = 0xCAFEBABE then do
    let minorVersion ← readU16
    let majorVersion ← readU16
    let constantPoolCount ← readU16
    let constantPool ← read_constant_pool constantPoolCount
    let accessFlags ← readU16
    let thisClass ← readU16
    let superClass ← readU16
    let interfacesCount ← readU16
    let interfaces ← readN readU16 interfacesCount
    let fieldsCount ← readU16
    let fields ← readN (read_fieldF f constantPool) fieldsCount
    let methodsCount ← readU16
    let methods ← readN (read_methodF f constantPool) methodsCount
    let attributesCount ← readU16
    let attributes ← readN (readAttrF f constantPool) attributesCount
    pure ⟨magic, minorVersion, majorVersion, constantPoolCount, constantPool, accessFlags,
      thisClass, superClass, interfaces, fields, methods, attributes⟩
  else
    errM (.wrongValue ("MAGIC") magic 0xCAFEBABE)

/-- Embeds `parse_class_file` (entry point; the file is the byte list, fuel is
supplied from its length). -/
def parse_class_file : M ClassFile := fun l => parseF (l.length + 1) l

/-! ## Prefix stability

`Stable p` says that a successful run of `p` consumed a definite byte
sequence `c`: the result does not depend on what follows `c`, and running
`p` on any strict prefix of `c` fails with the exhaustion error.  All the
decoders are built from front-reads, so all of them are stable; this is the
engine behind the truncation claim. -/

def Stable (p : M α) : Prop :=
  ∀ l a l', p l = .ok a l' →
    ∃ c, l = c ++ l' ∧
      (∀ rest, p (c ++ rest) = .ok a rest) ∧
      (∀ t d, c = t ++ d → d ≠ [] → p t = .err .exhaustion)

theorem stable_pure (a : α) : Stable (pure a : M α) := by
  intro l b l' h
  rw [pure_eval] at h
  injection h with h1 h2
  subst h1
  subst h2
  refine ⟨[], rfl, fun rest => rfl, fun t d htd hd => ?_⟩
  exact absurd (List.append_eq_nil.mp htd.symm).2 hd

theorem stable_errM (e : PErrT) : Stable (errM e : M α) := by
  intro l a l' h
  exact absurd h (by simp [errM])

theorem stable_crashM : Stable (crashM : M α) := by
  intro l a l' h
  exact absurd h (by simp [crashM])

theorem stable_readU8 : Stable readU8 := by
  intro l a l' h
  cases l with
  | nil => exact absurd h (by simp [readU8])
  | cons b r =>
    rw [readU8_cons] at h
    injection h with h1 h2
    subst h1
    subst h2
    refine ⟨[b], rfl, fun rest => rfl, fun t d htd hd => ?_⟩
    cases t with
    | nil => rfl
    | cons x xs =>
      simp only [List.cons_append, List.cons.injEq] at htd
      exact absurd (List.append_eq_nil.mp htd.2.symm).2 hd

theorem stable_bind {p : M α} {f : α → M β} (hp : Stable p)
    (hf : ∀ a, Stable (f a)) : Stable (p >>= f) := by
  intro l b l' h
  rw [bind_eval] at h
  cases hpl : p l with
  | err e => rw [hpl] at h; cases h
  | crash => rw [hpl] at h; cases h
  | ok a m =>
    rw [hpl] at h
    obtain ⟨c₁, rfl, hcons₁, hpre₁⟩ := hp l a m hpl
    obtain ⟨c₂, rfl, hcons₂, hpre₂⟩ := hf a m b l' h
    refine ⟨c₁ ++ c₂, by rw [List.append_assoc], ?_, ?_⟩
    · intro rest
      rw [List.append_assoc, bind_ok (hcons₁ (c₂ ++ rest))]
      exact hcons₂ rest
    · intro t d htd hd
      rcases List.append_eq_append_iff.mp htd.symm with ⟨w, hw₁, hw₂⟩ | ⟨w, hw₁, hw₂⟩
      · cases w with
        | nil =>
          rw [List.append_nil] at hw₁
          rw [List.nil_append] at hw₂
          subst hw₂
          have h0 : p t = POut.ok a [] := by
            have hc := hcons₁ []
            rwa [List.append_nil, hw₁] at hc
          rw [bind_ok h0]
          exact hpre₂ [] d rfl hd
        | cons x xs =>
          exact bind_err (hpre₁ t (x :: xs) hw₁ (by simp))
      · have h0 : p t = POut.ok a w := by rw [hw₁]; exact hcons₁ w
        rw [bind_ok h0]
        exact hpre₂ w d hw₂ hd

theorem stable_readU16 : Stable readU16 :=
  stable_bind stable_readU8 fun _ => stable_bind stable_readU8 fun _ => stable_pure _

theorem stable_readU32 : Stable readU32 :=
  stable_bind stable_readU8 fun _ => stable_bind stable_readU8 fun _ =>
    stable_bind stable_readU8 fun _ => stable_bind stable_readU8 fun _ => stable_pure _

theorem stable_readN {p : M α} (hp : Stable p) : ∀ n, Stable (readN p n)
  | 0 => stable_pure []
  | n + 1 =>
    stable_bind hp fun _ => stable_bind (stable_readN hp n) fun _ => stable_pure _

theorem stable_ite {c : Prop} [Decidable c] {p q : M α} (hp : Stable p) (hq : Stable q) :
    Stable (if c then p else q) := by
  by_cases h : c
  · rwa [if_pos h]
  · rwa [if_neg h]

theorem stable_cpUtf8P : Stable cpUtf8P := by
  unfold cpUtf8P
  refine stable_bind stable_readU16 fun length => ?_
  refine stable_bind (stable_readN stable_readU8 _) fun bytes => ?_
  split
  · exact stable_pure _
  · exact stable_errM _

theorem stable_cpMethodHandleP : Stable cpMethodHandleP := by
  unfold cpMethodHandleP
  refine stable_bind stable_readU8 fun referenceKindByte => ?_
  split
  · exact stable_bind stable_readU16 fun _ => stable_pure _
  · exact stable_errM _

theorem stable_read_constant_pool_entry : Stable read_constant_pool_entry := by
  unfold read_constant_pool_entry
  refine stable_bind stable_readU8 fun tag => ?_
  repeat' apply stable_ite
  · exact stable_cpUtf8P
  · exact stable_bind (stable_readN stable_readU8 _) fun _ => stable_pure _
  · exact stable_bind (stable_readN stable_readU8 _) fun _ => stable_pure _
  · exact stable_bind stable_readU32 fun _ => stable_bind stable_readU32 fun _ => stable_pure _
  · exact stable_bind stable_readU32 fun _ => stable_bind stable_readU32 fun _ => stable_pure _
  · exact stable_bind stable_readU16 fun _ => stable_pure _
  · exact stable_bind stable_readU16 fun _ => stable_pure _
  · exact stable_bind stable_readU16 fun _ => stable_bind stable_readU16 fun _ => stable_pure _
  · exact stable_bind stable_readU16 fun _ => stable_bind stable_readU16 fun _ => stable_pure _
  · exact stable_bind stable_readU16 fun _ => stable_bind stable_readU16 fun _ => stable_pure _
  · exact stable_bind stable_readU16 fun _ => stable_bind stable_readU16 fun _ => stable_pure _
  · exact stable_cpMethodHandleP
  · exact stable_bind stable_readU16 fun _ => stable_pure _
  · exact stable_bind stable_readU16 fun _ => stable_bind stable_readU16 fun _ => stable_pure _
  · exact stable_bind stable_readU16 fun _ => stable_bind stable_readU16 fun _ => stable_pure _
  · exact stable_bind stable_readU16 fun _ => stable_pure _
  · exact stable_bind stable_readU16 fun _ => stable_pure _
  · exact stable_errM _

theorem stable_read_constant_pool (n : Nat) : Stable (read_constant_pool n) :=
  stable_bind (stable_readN stable_read_constant_pool_entry _) fun _ => stable_pure _

theorem stable_read_verification_type_info : Stable read_verification_type_info := by
  unfold read_verification_type_info
  refine stable_bind stable_readU8 fun tag => ?_
  repeat' apply stable_ite
  · exact stable_pure _
  · exact stable_pure _
  · exact stable_pure _
  · exact stable_pure _
  · exact stable_pure _
  · exact stable_bind stable_readU16 fun _ => stable_pure _
  · exact stable_bind stable_readU16 fun _ => stable_pure _
  · exact stable_pure _
  · exact stable_pure _
  · exact stable_errM _

theorem stable_read_stack_map_frame : Stable read_stack_map_frame := by
  unfold read_stack_map_frame
  refine stable_bind stable_readU8 fun frameType => ?_
  repeat' apply stable_ite
  · exact stable_pure _
  · exact stable_bind stable_read_verification_type_info fun _ => stable_pure _
  · exact stable_bind stable_readU16 fun _ =>
      stable_bind stable_read_verification_type_info fun _ => stable_pure _
  · exact stable_bind stable_readU16 fun _ => stable_pure _
  · exact stable_bind stable_readU16 fun _ => stable_pure _
  · exact stable_bind stable_readU16 fun _ =>
      stable_bind (stable_readN stable_read_verification_type_info _) fun _ => stable_pure _
  · exact stable_bind stable_readU16 fun _ =>
      stable_bind stable_readU16 fun _ =>
      stable_bind (stable_readN stable_read_verification_type_info _) fun _ =>
      stable_bind stable_readU16 fun _ =>
      stable_bind (stable_readN stable_read_verification_type_info _) fun _ => stable_pure _
  · exact stable_errM _

theorem stable_read_annotations_element_value_pairOf {recEV : M ElemVal}
    (hEV : Stable recEV) : Stable (read_annotations_element_value_pairOf recEV) :=
  stable_bind stable_readU16 fun _ => stable_bind hEV fun _ => stable_pure _

theorem stable_read_runtime_annotations_entryOf {recEV : M ElemVal}
    (hEV : Stable recEV) : Stable (read_runtime_annotations_entryOf recEV) :=
  stable_bind stable_readU16 fun _ => stable_bind stable_readU16 fun _ =>
    stable_bind (stable_readN (stable_read_annotations_element_value_pairOf hEV) _) fun _ =>
      stable_pure _

theorem stable_read_annotations_element_valueBody {recEV : M ElemVal}
    (hEV : Stable recEV) : Stable (read_annotations_element_valueBody recEV) := by
  unfold read_annotations_element_valueBody
  refine stable_bind stable_readU8 fun tag => ?_
  repeat' apply stable_ite
  · exact stable_bind stable_readU16 fun _ => stable_pure _
  · exact stable_bind stable_readU16 fun _ => stable_pure _
  · exact stable_bind stable_readU16 fun _ => stable_pure _
  · exact stable_bind stable_readU16 fun _ => stable_pure _
  · exact stable_bind stable_readU16 fun _ => stable_pure _
  · exact stable_bind stable_readU16 fun _ => stable_pure _
  · exact stable_bind stable_readU16 fun _ => stable_pure _
  · exact stable_bind stable_readU16 fun _ => stable_pure _
  · exact stable_bind stable_readU16 fun _ => stable_pure _
  · exact stable_bind stable_readU16 fun _ => stable_bind stable_readU16 fun _ => stable_pure _
  · exact stable_bind stable_readU16 fun _ => stable_pure _
  · exact stable_bind (stable_read_runtime_annotations_entryOf hEV) fun _ => stable_pure _
  · exact stable_bind stable_readU16 fun _ =>
      stable_bind (stable_readN hEV _) fun _ => stable_pure _
  · exact stable_errM _

theorem stable_read_annotations_element_valueF :
    ∀ f, Stable (read_annotations_element_valueF f)
  | 0 => stable_errM _
  | f + 1 =>
    stable_read_annotations_element_valueBody (stable_read_annotations_element_valueF f)

theorem stable_localvarTargetTableEntryP : Stable localvarTargetTableEntryP :=
  stable_bind stable_readU16 fun _ => stable_bind stable_readU16 fun _ =>
    stable_bind stable_readU16 fun _ => stable_pure _

theorem stable_targetPathEntryP : Stable targetPathEntryP :=
  stable_bind stable_readU8 fun _ => stable_bind stable_readU8 fun _ => stable_pure _

theorem stable_readTargetInfo (targetType : Nat) : Stable (readTargetInfo targetType) := by
  unfold readTargetInfo
  repeat' apply stable_ite
  · exact stable_bind stable_readU8 fun _ => stable_pure _
  · exact stable_bind stable_readU16 fun _ => stable_pure _
  · exact stable_bind stable_readU8 fun _ => stable_bind stable_readU8 fun _ => stable_pure _
  · exact stable_pure _
  · exact stable_bind stable_readU8 fun _ => stable_pure _
  · exact stable_bind stable_readU16 fun _ => stable_pure _
  · exact stable_bind stable_readU16 fun _ =>
      stable_bind (stable_readN stable_localvarTargetTableEntryP _) fun _ => stable_pure _
  · exact stable_bind stable_readU16 fun _ => stable_pure _
  · exact stable_bind stable_readU16 fun _ => stable_pure _
  · exact stable_bind stable_readU16 fun _ => stable_bind stable_readU8 fun _ => stable_pure _
  · exact stable_errM _

theorem stable_read_runtime_type_annotations_entryOf {recEV : M ElemVal}
    (hEV : Stable recEV) : Stable (read_runtime_type_annotations_entryOf recEV) :=
  stable_bind stable_readU8 fun targetType =>
    stable_bind (stable_readTargetInfo targetType) fun _ =>
    stable_bind stable_readU8 fun _ =>
    stable_bind (stable_readN stable_targetPathEntryP _) fun _ =>
    stable_bind stable_readU16 fun _ =>
    stable_bind stable_readU16 fun _ =>
    stable_bind (stable_readN (stable_read_annotations_element_value_pairOf hEV) _) fun _ =>
    stable_pure _

theorem stable_exceptionTableEntryP : Stable exceptionTableEntryP :=
  stable_bind stable_readU16 fun _ => stable_bind stable_readU16 fun _ =>
    stable_bind stable_readU16 fun _ => stable_bind stable_readU16 fun _ => stable_pure _

theorem stable_innerClassP : Stable innerClassP :=
  stable_bind stable_readU16 fun _ => stable_bind stable_readU16 fun _ =>
    stable_bind stable_readU16 fun _ => stable_bind stable_readU16 fun _ => stable_pure _

theorem stable_lineNumberTableEntryP : Stable lineNumberTableEntryP :=
  stable_bind stable_readU16 fun _ => stable_bind stable_readU16 fun _ => stable_pure _

theorem stable_localVariableTableEntryP : Stable localVariableTableEntryP :=
  stable_bind stable_readU16 fun _ => stable_bind stable_readU16 fun _ =>
    stable_bind stable_readU16 fun _ => stable_bind stable_readU16 fun _ =>
    stable_bind stable_readU16 fun _ => stable_pure _

theorem stable_localVariableTypeTableEntryP : Stable localVariableTypeTableEntryP :=
  stable_bind stable_readU16 fun _ => stable_bind stable_readU16 fun _ =>
    stable_bind stable_readU16 fun _ => stable_bind stable_readU16 fun _ =>
    stable_bind stable_readU16 fun _ => stable_pure _

theorem stable_parameterAnnotationsGroupOf {recEV : M ElemVal} (hEV : Stable recEV) :
    Stable (parameterAnnotationsGroupOf recEV) :=
  stable_bind stable_readU16 fun _ =>
    stable_readN (stable_read_runtime_annotations_entryOf hEV) _

theorem stable_bootstrapMethodsEntryP : Stable bootstrapMethodsEntryP :=
  stable_bind stable_readU16 fun _ => stable_bind stable_readU16 fun _ =>
    stable_bind (stable_readN stable_readU16 _) fun _ => stable_pure _

theorem stable_methodParametersEntryP : Stable methodParametersEntryP :=
  stable_bind stable_readU16 fun _ => stable_bind stable_readU16 fun _ => stable_pure _

theorem stable_moduleRequiresEntryP : Stable moduleRequiresEntryP :=
  stable_bind stable_readU16 fun _ => stable_bind stable_readU16 fun _ =>
    stable_bind stable_readU16 fun _ => stable_pure _

theorem stable_moduleExportsEntryP : Stable moduleExportsEntryP :=
  stable_bind stable_readU16 fun _ => stable_bind stable_readU16 fun _ =>
    stable_bind stable_readU16 fun _ =>
    stable_bind (stable_readN stable_readU16 _) fun _ => stable_pure _

theorem stable_moduleOpensEntryP : Stable moduleOpensEntryP :=
  stable_bind stable_readU16 fun _ => stable_bind stable_readU16 fun _ =>
    stable_bind stable_readU16 fun _ =>
    stable_bind (stable_readN stable_readU16 _) fun _ => stable_pure _

theorem stable_moduleProvidesEntryP : Stable moduleProvidesEntryP :=
  stable_bind stable_readU16 fun _ => stable_bind stable_readU16 fun _ =>
    stable_bind (stable_readN stable_readU16 _) fun _ => stable_pure _

theorem stable_recordComponentOf {recAttr : M AttributeInfo} (hA : Stable recAttr) :
    Stable (recordComponentOf recAttr) :=
  stable_bind stable_readU16 fun _ => stable_bind stable_readU16 fun _ =>
    stable_bind stable_readU16 fun _ =>
    stable_bind (stable_readN hA _) fun _ => stable_pure _

theorem stable_attrDispatch {recAttr : M AttributeInfo} {recEV : M ElemVal}
    (hA : Stable recAttr) (hEV : Stable recEV) (converted : String) (attributeLength : Nat) :
    Stable (attrDispatch recAttr recEV converted attributeLength) := by
  unfold attrDispatch
  repeat' apply stable_ite
  · exact stable_bind stable_readU16 fun _ => stable_pure _
  · exact stable_bind stable_readU16 fun _ => stable_bind stable_readU16 fun _ =>
      stable_bind stable_readU32 fun _ =>
      stable_bind (stable_readN stable_readU8 _) fun _ =>
      stable_bind stable_readU16 fun _ =>
      stable_bind (stable_readN stable_exceptionTableEntryP _) fun _ =>
      stable_bind stable_readU16 fun _ =>
      stable_bind (stable_readN hA _) fun _ => stable_pure _
  · exact stable_bind stable_readU16 fun _ =>
      stable_bind (stable_readN stable_read_stack_map_frame _) fun _ => stable_pure _
  · exact stable_bind stable_readU16 fun _ =>
      stable_bind (stable_readN stable_readU16 _) fun _ => stable_pure _
  · exact stable_bind stable_readU16 fun _ =>
      stable_bind (stable_readN stable_innerClassP _) fun _ => stable_pure _
  · exact stable_bind stable_readU16 fun _ => stable_bind stable_readU16 fun _ => stable_pure _
  · exact stable_pure _
  · exact stable_bind stable_readU16 fun _ => stable_pure _
  · exact stable_bind stable_readU16 fun _ => stable_pure _
  · exact stable_bind (stable_readN stable_readU8 _) fun _ => stable_pure _
  · exact stable_bind stable_readU16 fun _ =>
      stable_bind (stable_readN stable_lineNumberTableEntryP _) fun _ => stable_pure _
  · exact stable_bind stable_readU16 fun _ =>
      stable_bind (stable_readN stable_localVariableTableEntryP _) fun _ => stable_pure _
  · exact stable_bind stable_readU16 fun _ =>
      stable_bind (stable_readN stable_localVariableTypeTableEntryP _) fun _ => stable_pure _
  · exact stable_pure _
  · exact stable_bind stable_readU16 fun _ =>
      stable_bind (stable_readN (stable_read_runtime_annotations_entryOf hEV) _) fun _ =>
      stable_pure _
  · exact stable_bind stable_readU16 fun _ =>
      stable_bind (stable_readN (stable_read_runtime_annotations_entryOf hEV) _) fun _ =>
      stable_pure _
  · exact stable_bind stable_readU8 fun _ =>
      stable_bind (stable_readN (stable_parameterAnnotationsGroupOf hEV) _) fun _ =>
      stable_pure _
  · exact stable_bind stable_readU8 fun _ =>
      stable_bind (stable_readN (stable_parameterAnnotationsGroupOf hEV) _) fun _ =>
      stable_pure _
  · exact stable_bind stable_readU16 fun _ =>
      stable_bind (stable_readN (stable_read_runtime_type_annotations_entryOf hEV) _) fun _ =>
      stable_pure _
  · exact stable_bind stable_readU16 fun _ =>
      stable_bind (stable_readN (stable_read_runtime_type_annotations_entryOf hEV) _) fun _ =>
      stable_pure _
  · exact stable_bind hEV fun _ => stable_pure _
  · exact stable_bind stable_readU16 fun _ =>
      stable_bind (stable_readN stable_bootstrapMethodsEntryP _) fun _ => stable_pure _
  · exact stable_bind stable_readU8 fun _ =>
      stable_bind (stable_readN stable_methodParametersEntryP _) fun _ => stable_pure _
  · exact stable_bind stable_readU16 fun _ => stable_bind stable_readU16 fun _ =>
      stable_bind stable_readU16 fun _ => stable_bind stable_readU16 fun _ =>
      stable_bind (stable_readN stable_moduleRequiresEntryP _) fun _ =>
      stable_bind stable_readU16 fun _ =>
      stable_bind (stable_readN stable_moduleExportsEntryP _) fun _ =>
      stable_bind stable_readU16 fun _ =>
      stable_bind (stable_readN stable_moduleOpensEntryP _) fun _ =>
      stable_bind stable_readU16 fun _ =>
      stable_bind (stable_readN stable_readU16 _) fun _ =>
      stable_bind stable_readU16 fun _ =>
      stable_bind (stable_readN stable_moduleProvidesEntryP _) fun _ => stable_pure _
  · exact stable_bind stable_readU16 fun _ =>
      stable_bind (stable_readN stable_readU16 _) fun _ => stable_pure _
  · exact stable_bind stable_readU16 fun _ => stable_pure _
  · exact stable_bind stable_readU16 fun _ => stable_pure _
  · exact stable_bind stable_readU16 fun _ =>
      stable_bind (stable_readN stable_readU16 _) fun _ => stable_pure _
  · exact stable_bind stable_readU16 fun _ =>
      stable_bind (stable_readN (stable_recordComponentOf hA) _) fun _ => stable_pure _
  · exact stable_bind stable_readU16 fun _ =>
      stable_bind (stable_readN stable_readU16 _) fun _ => stable_pure _
  · exact stable_errM _

theorem stable_readAttrBody {recAttr : M AttributeInfo} {recEV : M ElemVal}
    (hA : Stable recAttr) (hEV : Stable recEV) (constant_pool : List CpInfo) :
    Stable (readAttrBody recAttr recEV constant_pool) := by
  unfold readAttrBody
  refine stable_bind stable_readU16 fun attributeNameIndex => ?_
  refine stable_bind stable_readU32 fun attributeLength => ?_
  split
  · exact stable_crashM
  · exact stable_attrDispatch hA hEV _ _
  · exact stable_errM _

theorem stable_readAttrF : ∀ (f : Nat) (constant_pool : List CpInfo),
    Stable (readAttrF f constant_pool)
  | 0, _ => stable_errM _
  | f + 1, constant_pool =>
    stable_readAttrBody (stable_readAttrF f constant_pool)
      (stable_read_annotations_element_valueF f) constant_pool

theorem stable_read_fieldF (f : Nat) (constant_pool : List CpInfo) :
    Stable (read_fieldF f constant_pool) :=
  stable_bind stable_readU16 fun _ => stable_bind stable_readU16 fun _ =>
    stable_bind stable_readU16 fun _ => stable_bind stable_readU16 fun _ =>
    stable_bind (stable_readN (stable_readAttrF f constant_pool) _) fun _ => stable_pure _

theorem stable_read_methodF (f : Nat) (constant_pool : List CpInfo) :
    Stable (read_methodF f constant_pool) :=
  stable_bind stable_readU16 fun _ => stable_bind stable_readU16 fun _ =>
    stable_bind stable_readU16 fun _ => stable_bind stable_readU16 fun _ =>
    stable_bind (stable_readN (stable_readAttrF f constant_pool) _) fun _ => stable_pure _

theorem stable_parseF (f : Nat) : Stable (parseF f) := by
  unfold parseF
  refine stable_bind stable_readU32 fun magic => ?_
  apply stable_ite
  · exact stable_bind stable_readU16 fun _ => stable_bind stable_readU16 fun _ =>
      stable_bind stable_readU16 fun cpc =>
      stable_bind (stable_read_constant_pool cpc) fun constantPool =>
      stable_bind stable_readU16 fun _ => stable_bind stable_readU16 fun _ =>
      stable_bind stable_readU16 fun _ => stable_bind stable_readU16 fun _ =>
      stable_bind (stable_readN stable_readU16 _) fun _ =>
      stable_bind stable_readU16 fun _ =>
      stable_bind (stable_readN (stable_read_fieldF f constantPool) _) fun _ =>
      stable_bind stable_readU16 fun _ =>
      stable_bind (stable_readN (stable_read_methodF f constantPool) _) fun _ =>
      stable_bind stable_readU16 fun _ =>
      stable_bind (stable_readN (stable_readAttrF f constantPool) _) fun _ => stable_pure _
  · exact stable_errM _

/-! ## Fuel dichotomy

`Dich p q` relates a lower-fuel parser `p` to a higher-fuel parser `q`:
on every input, `p` either agrees with `q` or fails with the exhaustion
error (fuel running out is rendered as exhaustion).  This transports
results between the input-dependent fuels of the entry-point wrappers. -/

def Dich (p q : M α) : Prop := ∀ l, p l = q l ∨ p l = .err .exhaustion

theorem dich_refl (p : M α) : Dich p p := fun _ => Or.inl rfl

theorem dich_bind2 {p₁ p₂ : M α} {k₁ k₂ : α → M β} (hp : Dich p₁ p₂)
    (hk : ∀ a, Dich (k₁ a) (k₂ a)) : Dich (p₁ >>= k₁) (p₂ >>= k₂) := by
  intro l
  rw [bind_eval, bind_eval]
  rcases hp l with heq | hex
  · rw [heq]
    cases p₂ l with
    | ok a m => exact hk a m
    | err e => exact Or.inl rfl
    | crash => exact Or.inl rfl
  · rw [hex]
    exact Or.inr rfl

theorem dich_ite {c : Prop} [Decidable c] {p p' q q' : M α} (hp : Dich p p')
    (hq : Dich q q') : Dich (if c then p else q) (if c then p' else q') := by
  by_cases h : c
  · rw [if_pos h, if_pos h]; exact hp
  · rw [if_neg h, if_neg h]; exact hq

theorem dich_readN {p q : M α} (h : Dich p q) : ∀ n, Dich (readN p n) (readN q n)
  | 0 => dich_refl _
  | n + 1 => dich_bind2 h fun _ => dich_bind2 (dich_readN h n) fun _ => dich_refl _

theorem dich_read_annotations_element_value_pairOf {ev₁ ev₂ : M ElemVal} (h : Dich ev₁ ev₂) :
    Dich (read_annotations_element_value_pairOf ev₁) (read_annotations_element_value_pairOf ev₂) :=
  dich_bind2 (dich_refl _) fun _ => dich_bind2 h fun _ => dich_refl _

theorem dich_read_runtime_annotations_entryOf {ev₁ ev₂ : M ElemVal} (h : Dich ev₁ ev₂) :
    Dich (read_runtime_annotations_entryOf ev₁) (read_runtime_annotations_entryOf ev₂) :=
  dich_bind2 (dich_refl _) fun _ => dich_bind2 (dich_refl _) fun _ =>
    dich_bind2 (dich_readN (dich_read_annotations_element_value_pairOf h) _) fun _ =>
    dich_refl _

theorem dich_read_annotations_element_valueBody {ev₁ ev₂ : M ElemVal} (h : Dich ev₁ ev₂) :
    Dich (read_annotations_element_valueBody ev₁) (read_annotations_element_valueBody ev₂) := by
  unfold read_annotations_element_valueBody
  refine dich_bind2 (dich_refl _) fun tag => ?_
  repeat' apply dich_ite
  · exact dich_refl _
  · exact dich_refl _
  · exact dich_refl _
  · exact dich_refl _
  · exact dich_refl _
  · exact dich_refl _
  · exact dich_refl _
  · exact dich_refl _
  · exact dich_refl _
  · exact dich_refl _
  · exact dich_refl _
  · exact dich_bind2 (dich_read_runtime_annotations_entryOf h) fun _ => dich_refl _
  · exact dich_bind2 (dich_refl _) fun _ => dich_bind2 (dich_readN h _) fun _ => dich_refl _
  · exact dich_refl _

theorem dich_read_annotations_element_valueF :
    ∀ f g, f ≤ g →
      Dich (read_annotations_element_valueF f) (read_annotations_element_valueF g)
  | 0, _, _ => fun _ => Or.inr rfl
  | f + 1, g + 1, h =>
    dich_read_annotations_element_valueBody
      (dich_read_annotations_element_valueF f g (Nat.le_of_succ_le_succ h))

theorem dich_read_runtime_type_annotations_entryOf {ev₁ ev₂ : M ElemVal} (h : Dich ev₁ ev₂) :
    Dich (read_runtime_type_annotations_entryOf ev₁)
      (read_runtime_type_annotations_entryOf ev₂) :=
  dich_bind2 (dich_refl _) fun _ => dich_bind2 (dich_refl _) fun _ =>
    dich_bind2 (dich_refl _) fun _ => dich_bind2 (dich_refl _) fun _ =>
    dich_bind2 (dich_refl _) fun _ => dich_bind2 (dich_refl _) fun _ =>
    dich_bind2 (dich_readN (dich_read_annotations_element_value_pairOf h) _) fun _ =>
    dich_refl _

theorem dich_parameterAnnotationsGroupOf {ev₁ ev₂ : M ElemVal} (h : Dich ev₁ ev₂) :
    Dich (parameterAnnotationsGroupOf ev₁) (parameterAnnotationsGroupOf ev₂) :=
  dich_bind2 (dich_refl _) fun _ =>
    dich_readN (dich_read_runtime_annotations_entryOf h) _

theorem dich_attrCodeOf {a₁ a₂ : M AttributeInfo} (h : Dich a₁ a₂) (attributeLength : Nat) :
    Dich (attrCodeOf a₁ attributeLength) (attrCodeOf a₂ attributeLength) :=
  dich_bind2 (dich_refl _) fun _ => dich_bind2 (dich_refl _) fun _ =>
    dich_bind2 (dich_refl _) fun _ => dich_bind2 (dich_refl _) fun _ =>
    dich_bind2 (dich_refl _) fun _ => dich_bind2 (dich_refl _) fun _ =>
    dich_bind2 (dich_refl _) fun _ =>
    dich_bind2 (dich_readN h _) fun _ => dich_refl _

theorem dich_recordComponentOf {a₁ a₂ : M AttributeInfo} (h : Dich a₁ a₂) :
    Dich (recordComponentOf a₁) (recordComponentOf a₂) :=
  dich_bind2 (dich_refl _) fun _ => dich_bind2 (dich_refl _) fun _ =>
    dich_bind2 (dich_refl _) fun _ =>
    dich_bind2 (dich_readN h _) fun _ => dich_refl _

theorem dich_attrRecordOf {a₁ a₂ : M AttributeInfo} (h : Dich a₁ a₂) (attributeLength : Nat) :
    Dich (attrRecordOf a₁ attributeLength) (attrRecordOf a₂ attributeLength) :=
  dich_bind2 (dich_refl _) fun _ =>
    dich_bind2 (dich_readN (dich_recordComponentOf h) _) fun _ => dich_refl _

theorem dich_attrDispatch {a₁ a₂ : M AttributeInfo} {ev₁ ev₂ : M ElemVal}
    (hA : Dich a₁ a₂) (hEV : Dich ev₁ ev₂) (converted : String) (attributeLength : Nat) :
    Dich (attrDispatch a₁ ev₁ converted attributeLength)
      (attrDispatch a₂ ev₂ converted attributeLength) := by
  unfold attrDispatch
  repeat' apply dich_ite
  · exact dich_refl _
  · exact dich_attrCodeOf hA _
  · exact dich_refl _
  · exact dich_refl _
  · exact dich_refl _
  · exact dich_refl _
  · exact dich_refl _
  · exact dich_refl _
  · exact dich_refl _
  · exact dich_refl _
  · exact dich_refl _
  · exact dich_refl _
  · exact dich_refl _
  · exact dich_refl _
  · exact dich_bind2 (dich_refl _) fun _ =>
      dich_bind2 (dich_readN (dich_read_runtime_annotations_entryOf hEV) _) fun _ =>
      dich_refl _
  · exact dich_bind2 (dich_refl _) fun _ =>
      dich_bind2 (dich_readN (dich_read_runtime_annotations_entryOf hEV) _) fun _ =>
      dich_refl _
  · exact dich_bind2 (dich_refl _) fun _ =>
      dich_bind2 (dich_readN (dich_parameterAnnotationsGroupOf hEV) _) fun _ => dich_refl _
  · exact dich_bind2 (dich_refl _) fun _ =>
      dich_bind2 (dich_readN (dich_parameterAnnotationsGroupOf hEV) _) fun _ => dich_refl _
  · exact dich_bind2 (dich_refl _) fun _ =>
      dich_bind2 (dich_readN (dich_read_runtime_type_annotations_entryOf hEV) _) fun _ =>
      dich_refl _
  · exact dich_bind2 (dich_refl _) fun _ =>
      dich_bind2 (dich_readN (dich_read_runtime_type_annotations_entryOf hEV) _) fun _ =>
      dich_refl _
  · exact dich_bind2 hEV fun _ => dich_refl _
  · exact dich_refl _
  · exact dich_refl _
  · exact dich_refl _
  · exact dich_refl _
  · exact dich_refl _
  · exact dich_refl _
  · exact dich_refl _
  · exact dich_attrRecordOf hA _
  · exact dich_refl _
  · exact dich_refl _

theorem dich_readAttrBody {a₁ a₂ : M AttributeInfo} {ev₁ ev₂ : M ElemVal}
    (hA : Dich a₁ a₂) (hEV : Dich ev₁ ev₂) (constant_pool : List CpInfo) :
    Dich (readAttrBody a₁ ev₁ constant_pool) (readAttrBody a₂ ev₂ constant_pool) := by
  unfold readAttrBody
  refine dich_bind2 (dich_refl _) fun attributeNameIndex => ?_
  refine dich_bind2 (dich_refl _) fun attributeLength => ?_
  rcases constant_pool[attributeNameIndex]? with _ | entry
  · exact dich_refl _
  · cases entry
    all_goals first
      | exact dich_attrDispatch hA hEV _ _
      | exact dich_refl _

theorem dich_readAttrF : ∀ f g, f ≤ g → ∀ constant_pool,
    Dich (readAttrF f constant_pool) (readAttrF g constant_pool)
  | 0, _, _, _ => fun _ => Or.inr rfl
  | f + 1, g + 1, h, constant_pool =>
    dich_readAttrBody (dich_readAttrF f g (Nat.le_of_succ_le_succ h) constant_pool)
      (dich_read_annotations_element_valueF f g (Nat.le_of_succ_le_succ h)) constant_pool

theorem dich_read_fieldF {f g : Nat} (h : f ≤ g) (constant_pool : List CpInfo) :
    Dich (read_fieldF f constant_pool) (read_fieldF g constant_pool) :=
  dich_bind2 (dich_refl _) fun _ => dich_bind2 (dich_refl _) fun _ =>
    dich_bind2 (dich_refl _) fun _ => dich_bind2 (dich_refl _) fun _ =>
    dich_bind2 (dich_readN (dich_readAttrF f g h constant_pool) _) fun _ => dich_refl _

theorem dich_read_methodF {f g : Nat} (h : f ≤ g) (constant_pool : List CpInfo) :
    Dich (read_methodF f constant_pool) (read_methodF g constant_pool) :=
  dich_bind2 (dich_refl _) fun _ => dich_bind2 (dich_refl _) fun _ =>
    dich_bind2 (dich_refl _) fun _ => dich_bind2 (dich_refl _) fun _ =>
    dich_bind2 (dich_readN (dich_readAttrF f g h constant_pool) _) fun _ => dich_refl _

theorem dich_parseF {f g : Nat} (h : f ≤ g) : Dich (parseF f) (parseF g) := by
  unfold parseF
  refine dich_bind2 (dich_refl _) fun magic => ?_
  apply dich_ite
  · exact dich_bind2 (dich_refl _) fun _ => dich_bind2 (dich_refl _) fun _ =>
      dich_bind2 (dich_refl _) fun _ =>
      dich_bind2 (dich_refl _) fun constantPool =>
      dich_bind2 (dich_refl _) fun _ => dich_bind2 (dich_refl _) fun _ =>
      dich_bind2 (dich_refl _) fun _ => dich_bind2 (dich_refl _) fun _ =>
      dich_bind2 (dich_refl _) fun _ =>
      dich_bind2 (dich_refl _) fun _ =>
      dich_bind2 (dich_readN (dich_read_fieldF h constantPool) _) fun _ =>
      dich_bind2 (dich_refl _) fun _ =>
      dich_bind2 (dich_readN (dich_read_methodF h constantPool) _) fun _ =>
      dich_bind2 (dich_refl _) fun _ =>
      dich_bind2 (dich_readN (dich_readAttrF f g h constantPool) _) fun _ => dich_refl _
  · exact dich_refl _

/-! ## Helper lemmas for the claims -/

theorem readN_length {p : M α} :
    ∀ (n : Nat) (l : List Nat) (as : List α) (rest : List Nat),
      readN p n l = .ok as rest → as.length = n := by
  intro n
  induction n with
  | zero =>
    intro l as rest h
    rw [readN, pure_eval] at h
    injection h with h1 _
    rw [← h1]
    rfl
  | succ n ih =>
    intro l as rest h
    rw [readN] at h
    cases hp : p l with
    | err e => rw [bind_err hp] at h; cases h
    | crash => rw [bind_crash hp] at h; cases h
    | ok a m =>
      rw [bind_ok hp] at h
      cases hr : readN p n m with
      | err e => rw [bind_err hr] at h; cases h
      | crash => rw [bind_crash hr] at h; cases h
      | ok as' m' =>
        rw [bind_ok hr, pure_eval] at h
        injection h with h1 _
        rw [← h1]
        simp only [List.length_cons]
        rw [ih m as' m' hr]

theorem charFromU32_some {cp : Nat} (h : cp < 0xD800 ∨ (0xE000 ≤ cp ∧ cp ≤ 0x10FFFF)) :
    charFromU32 cp = some cp := by
  unfold charFromU32
  rw [if_pos h]

/-- The placeholder the decoder pushes at index 0 of every constant pool. -/
def cpDummyEntry : CpInfo := CpInfo.integer [0, 0, 0, 0]

theorem read_constant_pool_ok_head {count : Nat} {l : List Nat} {pool : List CpInfo}
    {rest : List Nat} (h : read_constant_pool count l = .ok pool rest) :
    pool.length = (count + 65535) % 65536 + 1 ∧ pool.head? = some cpDummyEntry := by
  rw [read_constant_pool] at h
  cases hr : readN read_constant_pool_entry ((count + 65535) % 65536) l with
  | err e => rw [bind_err hr] at h; cases h
  | crash => rw [bind_crash hr] at h; cases h
  | ok entries m =>
    rw [bind_ok hr, pure_eval] at h
    injection h with h1 _
    rw [← h1]
    refine ⟨?_, rfl⟩
    simp only [List.length_cons]
    rw [readN_length _ _ _ _ hr]

set_option maxRecDepth 4000 in
theorem twoByteLeadMask : ∀ x < 256, 0xC0 ≤ x → x ≤ 0xDF → x &&& 0xE0 = 0xC0 := by decide

set_option maxRecDepth 4000 in
theorem threeByteLeadNotTwo : ∀ x < 256, 0xE0 ≤ x → x ≤ 0xEF → ¬(x &&& 0xE0 = 0xC0) := by
  decide

set_option maxRecDepth 4000 in
theorem threeByteLeadMask : ∀ x < 256, 0xE0 ≤ x → x ≤ 0xEF → x &&& 0xF0 = 0xE0 := by decide

theorem pushScalar_valid {cp : Nat} (e : Utf8Err) (k : Except Utf8Err (List Nat))
    (h : charFromU32 cp = some cp) :
    pushScalar cp e k = k.map (fun cs => cp :: cs) := by
  unfold pushScalar
  rw [h]

/-- Name resolution at the head of `read_attribute` (any recursive
instantiation): given the six header bytes, an out-of-range name index
crashes (the `Vec` index panic) and an in-range non-UTF8 entry yields the
wrong-variant error. -/
theorem readAttrBody_nameResolution (recAttr : M AttributeInfo) (recEV : M ElemVal)
    (constant_pool : List CpInfo) (b0 b1 b2 b3 b4 b5 : Nat) (rest : List Nat) :
    (constant_pool.length ≤ b0 * 256 + b1 →
      readAttrBody recAttr recEV constant_pool (b0 :: b1 :: b2 :: b3 :: b4 :: b5 :: rest) =
        .crash) ∧
    (∀ entry, constant_pool[b0 * 256 + b1]? = some entry →
      (∀ bytes converted, entry ≠ CpInfo.utf8 bytes converted) →
      readAttrBody recAttr recEV constant_pool (b0 :: b1 :: b2 :: b3 :: b4 :: b5 :: rest) =
        .err (.attrNameNotUtf8 (b0 * 256 + b1))) := by
  have h16 : readU16 (b0 :: b1 :: b2 :: b3 :: b4 :: b5 :: rest) =
      .ok (b0 * 256 + b1) (b2 :: b3 :: b4 :: b5 :: rest) := rfl
  have h32 : readU32 (b2 :: b3 :: b4 :: b5 :: rest) =
      .ok (((b2 * 256 + b3) * 256 + b4) * 256 + b5) rest := rfl
  constructor
  · intro h
    unfold readAttrBody
    rw [bind_ok h16, bind_ok h32, List.getElem?_eq_none h]
    rfl
  · intro entry he hne
    unfold readAttrBody
    rw [bind_ok h16, bind_ok h32, he]
    cases entry
    case utf8 bytes conv => exact absurd rfl (hne bytes conv)
    all_goals rfl

/-! ## The claims -/

/-- The constant pool used by the C1 evaluation: index 1 holds the UTF8 text
`"LocalVariableTypeTable"` (the attribute's name per the class-file
format). -/
def lvttPool : List CpInfo :=
  [CpInfo.integer [0, 0, 0, 0],
   CpInfo.utf8 ("LocalVariableTypeTable".data.map Char.toNat) "LocalVariableTypeTable"]

/-- A pool whose index 1 holds the misspelled name constant the source
actually matches on. -/
def lvttPoolEntry : List CpInfo :=
  [CpInfo.integer [0, 0, 0, 0],
   CpInfo.utf8 ("LocalVariableTypeTableEntry".data.map Char.toNat)
     "LocalVariableTypeTableEntry"]

/-- Claim C1: an attribute whose resolved name is exactly
`"LocalVariableTypeTable"` should decode into the LocalVariableTypeTable
variant.  On the code it does not: the name constant of that arm is
`"LocalVariableTypeTableEntry"` (parser.rs line 726), so the true format
name falls through to the unknown-attribute-name error, while the
misspelled name decodes into the variant.  The input is a header with name
index 1, declared length 2, and an empty (0-entry) table. -/
theorem claim_C1 :
    read_attribute lvttPool [0, 1, 0, 0, 0, 2, 0, 0] =
      .err (.unknownAttributeName ("LocalVariableTypeTable")) ∧
    read_attribute lvttPoolEntry [0, 1, 0, 0, 0, 2, 0, 0] =
      .ok (.localVariableTypeTable 2 []) [] :=
  ⟨rfl, rfl⟩

/-- Claim C2, counterexample: with a one-entry pool and attribute name index
5, `read_attribute` hits the out-of-bounds `Vec` index and panics (crash),
rather than returning an error value. -/
theorem claim_C2_counterexample :
    read_attribute [CpInfo.integer [0, 0, 0, 0]] [0, 5, 0, 0, 0, 0] = .crash := rfl

/-- Claim C2, amended: after the six header bytes are read, a name index
resolving (in range) to a non-UTF8 entry yields the decode-time
wrong-variant error, but an out-of-range name index panics (index out of
bounds) instead of returning an error value. -/
theorem claim_C2_amended (constant_pool : List CpInfo) (b0 b1 b2 b3 b4 b5 : Nat)
    (rest : List Nat) :
    (constant_pool.length ≤ b0 * 256 + b1 →
      read_attribute constant_pool (b0 :: b1 :: b2 :: b3 :: b4 :: b5 :: rest) = .crash) ∧
    (∀ entry, constant_pool[b0 * 256 + b1]? = some entry →
      (∀ bytes converted, entry ≠ CpInfo.utf8 bytes converted) →
      read_attribute constant_pool (b0 :: b1 :: b2 :: b3 :: b4 :: b5 :: rest) =
        .err (.attrNameNotUtf8 (b0 * 256 + b1))) :=
  readAttrBody_nameResolution
    (readAttrF (b0 :: b1 :: b2 :: b3 :: b4 :: b5 :: rest).length constant_pool)
    (read_annotations_element_valueF (b0 :: b1 :: b2 :: b3 :: b4 :: b5 :: rest).length)
    constant_pool b0 b1 b2 b3 b4 b5 rest

/-- Claim C2, witness: both amended cases at concrete inputs. -/
theorem claim_C2_witness :
    read_attribute [CpInfo.integer [0, 0, 0, 0]] [0, 5, 0, 0, 0, 0] = .crash ∧
    read_attribute [CpInfo.integer [0, 0, 0, 0]] [0, 0, 0, 0, 0, 0] =
      .err (.attrNameNotUtf8 0) := by
  constructor
  · exact (claim_C2_amended [CpInfo.integer [0, 0, 0, 0]] 0 5 0 0 0 0 []).1 (by decide)
  · exact (claim_C2_amended [CpInfo.integer [0, 0, 0, 0]] 0 0 0 0 0 0 []).2
      (CpInfo.integer [0, 0, 0, 0]) rfl (fun bytes converted h => by cases h)

/-- Claim C3, counterexample: a declared count of 0 does not yield an empty
pool.  `constant_pool_count - 1` is u16 arithmetic, so the loop bound wraps
to 65535 (a debug build would panic on the overflow) and on empty input the
decode fails with exhaustion instead of returning a 0-entry sequence. -/
theorem claim_C3_counterexample : read_constant_pool 0 [] = .err .exhaustion := rfl

/-- Claim C3, amended: for every declared count N with 1 ≤ N ≤ 65535, a
successful `read_constant_pool` returns exactly N entries, the entry at
index 0 being the placeholder (so N−1 decode iterations). -/
theorem claim_C3_amended (count : Nat) (l : List Nat) (pool : List CpInfo)
    (rest : List Nat) (h1 : 1 ≤ count) (h2 : count ≤ 65535)
    (h : read_constant_pool count l = .ok pool rest) :
    pool.length = count ∧ pool.head? = some (CpInfo.integer [0, 0, 0, 0]) := by
  obtain ⟨hlen, hhead⟩ := read_constant_pool_ok_head h
  refine ⟨?_, hhead⟩
  rw [hlen]
  omega

/-- Claim C3, witness: count 1 on empty input yields exactly the
placeholder. -/
theorem claim_C3_witness :
    ([CpInfo.integer [0, 0, 0, 0]] : List CpInfo).length = 1 ∧
    ([CpInfo.integer [0, 0, 0, 0]] : List CpInfo).head? =
      some (CpInfo.integer [0, 0, 0, 0]) :=
  claim_C3_amended 1 [] [CpInfo.integer [0, 0, 0, 0]] [] (by decide) (by decide) rfl

/-- Claim C4: the format's six-byte supplementary form (`0xED v w 0xED y z`)
should decode to one codepoint ≥ 0x10000.  On the code it cannot: the
leading byte 0xED matches the three-byte pattern `1110xxxx` first, the
three-byte arm reconstructs the surrogate 0xD800 and `char::from_u32`
rejects it.  The input is the six-byte encoding of U+10000.  The intended
six-byte arm is reachable only for leading bytes 0x80–0xBF, as the second
conjunct shows (same trailing bytes, lead byte 0xA0, decodes via the
`0x10000`-offset formula). -/
theorem claim_C4 :
    modified_utf8_to_string [0xED, 0xA0, 0x80, 0xED, 0xB0, 0x80] =
      .error (.invalidCodepoint 0xED 2) ∧
    modified_utf8_to_string [0xA0, 0xA0, 0x80, 0xED, 0xB0, 0x80] = .ok [0x10000] :=
  ⟨rfl, rfl⟩

/-- The smallest well-formed class file: magic, versions 0, pool count 1
(empty pool), zero flags/indices, and empty interface/field/method/attribute
lists — 24 bytes. -/
def minimalClassBytes : List Nat :=
  [0xCA, 0xFE, 0xBA, 0xBE, 0, 0, 0, 0, 0, 1, 0, 0, 0, 0, 0, 0, 0, 0, 0, 0, 0, 0, 0, 0]

/-- The structure `minimalClassBytes` decodes to. -/
def minimalClassFile : ClassFile :=
  ⟨0xCAFEBABE, 0, 0, 1, [CpInfo.integer [0, 0, 0, 0]], 0, 0, 0, [], [], [], []⟩

/-- Claim C5, counterexample: the decoder ignores trailing bytes, so the
25-byte input (minimal class file plus one junk byte) decodes successfully,
and its strict 24-byte prefix also decodes successfully (to the same
structure) — not to a source-exhaustion error as the claim requires. -/
theorem claim_C5_counterexample :
    parse_class_file (minimalClassBytes ++ [0]) = .ok minimalClassFile [0] ∧
    parse_class_file minimalClassBytes = .ok minimalClassFile [] :=
  ⟨rfl, rfl⟩

/-- Claim C5, amended: for every input on which the full decode succeeds
consuming the entire input (no leftover bytes), decoding any strict
byte-boundary prefix fails with the source-exhaustion error — never a
successfully decoded structure and never a different error. -/
theorem claim_C5_amended (l : List Nat) (cf : ClassFile)
    (h : parse_class_file l = .ok cf []) (t d : List Nat) (hl : l = t ++ d)
    (hd : d ≠ []) : parse_class_file t = .err .exhaustion := by
  obtain ⟨c, hc, _hcons, hpre⟩ := stable_parseF (l.length + 1) l cf [] h
  rw [List.append_nil] at hc
  have hctd : c = t ++ d := by rw [← hc]; exact hl
  have hex : parseF (l.length + 1) t = .err .exhaustion := hpre t d hctd hd
  have hle : t.length + 1 ≤ l.length + 1 := by
    rw [hl, List.length_append]
    omega
  show parseF (t.length + 1) t = .err .exhaustion
  rcases dich_parseF hle t with heq | hex2
  · rw [heq]
    exact hex
  · exact hex2

/-- Claim C5, witness: truncating the minimal class file one byte before its
end produces the exhaustion error. -/
theorem claim_C5_witness : parse_class_file (minimalClassBytes.take 23) = .err .exhaustion :=
  claim_C5_amended minimalClassBytes minimalClassFile rfl (minimalClassBytes.take 23) [0]
    rfl (by simp)

/-- Claim C6: any input whose first four bytes differ from 0xCAFEBABE fails
with the magic wrong-value error carrying the read and expected values.  The
universal quantification over `rest` shows no byte beyond the magic is
consumed or even inspected. -/
theorem claim_C6 (b0 b1 b2 b3 : Nat) (rest : List Nat)
    (h : ((b0 * 256 + b1) * 256 + b2) * 256 + b3 ≠ 0xCAFEBABE) :
    parse_class_file (b0 :: b1 :: b2 :: b3 :: rest) =
      .err (.wrongValue ("MAGIC") (((b0 * 256 + b1) * 256 + b2) * 256 + b3) 0xCAFEBABE) := by
  show parseF _ _ = _
  unfold parseF
  rw [bind_ok (readU32_cons b0 b1 b2 b3 rest), if_neg h]
  rfl

/-- Claim C6, witness: a zero magic fails with the wrong-value error. -/
theorem claim_C6_witness :
    parse_class_file [0, 0, 0, 0] = .err (.wrongValue ("MAGIC") 0 0xCAFEBABE) :=
  claim_C6 0 0 0 0 [] (by decide)

/-- Claim C7: a MethodHandle entry (tag 15) with a reference-kind byte
outside 1–9 fails listing all nine valid kinds and the offending value; a
kind in 1–9 succeeds with that kind and the following u16 reference
index. -/
theorem claim_C7 (k : Nat) :
    (∀ rest, ¬(1 ≤ k ∧ k ≤ 9) →
      read_constant_pool_entry (15 :: k :: rest) =
        .err (.notOneOf ("CONSTANT_POOL_METHOD_HANDLE_REFERENCE_KIND") k
          [1, 2, 3, 4, 5, 6, 7, 8, 9])) ∧
    (∀ b1 b2 rest, 1 ≤ k → k ≤ 9 →
      ∃ rk, MethodHandleReferenceKind.tryFrom k = some rk ∧
        MethodHandleReferenceKind.toNat rk = k ∧
        read_constant_pool_entry (15 :: k :: b1 :: b2 :: rest) =
          .ok (.methodHandle rk (b1 * 256 + b2)) rest) := by
  constructor
  · intro rest h
    have htf : MethodHandleReferenceKind.tryFrom k = none := by
      unfold MethodHandleReferenceKind.tryFrom
      repeat rw [if_neg (by omega)]
    show cpMethodHandleP (k :: rest) = _
    unfold cpMethodHandleP
    rw [bind_ok (readU8_cons k rest), htf]
    rfl
  · intro b1 b2 rest h1 h2
    interval_cases k
    all_goals exact ⟨_, rfl, rfl, rfl⟩

/-- Claim C7, witness: reference-kind 0x0A fails with the full kind list;
reference-kind 5 succeeds as InvokeVirtual. -/
theorem claim_C7_witness :
    read_constant_pool_entry [15, 10] =
      .err (.notOneOf ("CONSTANT_POOL_METHOD_HANDLE_REFERENCE_KIND") 10
        [1, 2, 3, 4, 5, 6, 7, 8, 9]) ∧
    ∃ rk, MethodHandleReferenceKind.tryFrom 5 = some rk ∧
      MethodHandleReferenceKind.toNat rk = 5 ∧
      read_constant_pool_entry [15, 5, 0, 1] = .ok (.methodHandle rk 1) [] :=
  ⟨(claim_C7 10).1 [] (by omega), (claim_C7 5).2 0 1 [] (by omega) (by omega)⟩

/-- Claim C8: the two-byte sequence 0xC0 0x80 decodes by the two-byte rule
to the single codepoint 0 (so the "fails or decodes to 0" boundary case
resolves to the decode side). -/
theorem claim_C8 : modified_utf8_to_string [0xC0, 0x80] = .ok [0] := rfl

/-- Claim C9: the codec never validates the high bits of continuation
bytes.  Any two-byte form decodes by masking the trailing byte's low six
bits (always a valid scalar), and any three-byte form likewise succeeds
whenever the reconstructed value is a valid scalar — so e.g. 0xC1 0x41
decodes without error. -/
theorem claim_C9 :
    (∀ b1 b2 : Nat, 0xC0 ≤ b1 → b1 ≤ 0xDF → b2 ≤ 0xFF →
      modified_utf8_to_string [b1, b2] =
        .ok [((b1 &&& 0x1F) <<< 6) + (b2 &&& 0x3F)]) ∧
    (∀ b1 b2 b3 : Nat, 0xE0 ≤ b1 → b1 ≤ 0xEF → b2 ≤ 0xFF → b3 ≤ 0xFF →
      (((b1 &&& 0xF) <<< 12) + ((b2 &&& 0x3F) <<< 6) + (b3 &&& 0x3F) < 0xD800 ∨
        0xE000 ≤ ((b1 &&& 0xF) <<< 12) + ((b2 &&& 0x3F) <<< 6) + (b3 &&& 0x3F)) →
      modified_utf8_to_string [b1, b2, b3] =
        .ok [((b1 &&& 0xF) <<< 12) + ((b2 &&& 0x3F) <<< 6) + (b3 &&& 0x3F)]) := by
  constructor
  · intro b1 b2 h1 h2 hb2
    have hmask := twoByteLeadMask b1 (by omega) h1 h2
    have hcp : ((b1 &&& 0x1F) <<< 6) + (b2 &&& 0x3F) < 0xD800 := by
      have ha : b1 &&& 0x1F ≤ 0x1F := Nat.and_le_right
      have hb : b2 &&& 0x3F ≤ 0x3F := Nat.and_le_right
      have hs : (b1 &&& 0x1F) <<< 6 = (b1 &&& 0x1F) * 64 := by
        rw [Nat.shiftLeft_eq]
      omega
    unfold modified_utf8_to_string utf8Go
    rw [if_neg (by omega : ¬(b1 = 0 ∨ 0xF0 ≤ b1)), if_neg (by omega : ¬ b1 ≤ 0x7F)]
    try dsimp only
    rw [if_pos hmask, pushScalar_valid _ _ (charFromU32_some (Or.inl hcp))]
    rfl
  · intro b1 b2 b3 h1 h2 hb2 hb3 hv
    have hnot2 := threeByteLeadNotTwo b1 (by omega) h1 h2
    have hmask := threeByteLeadMask b1 (by omega) h1 h2
    have hbound : ((b1 &&& 0xF) <<< 12) + ((b2 &&& 0x3F) <<< 6) + (b3 &&& 0x3F) ≤ 0xFFFF := by
      have ha : b1 &&& 0xF ≤ 0xF := Nat.and_le_right
      have hb : b2 &&& 0x3F ≤ 0x3F := Nat.and_le_right
      have hc : b3 &&& 0x3F ≤ 0x3F := Nat.and_le_right
      have hsa : (b1 &&& 0xF) <<< 12 = (b1 &&& 0xF) * 4096 := by
        rw [Nat.shiftLeft_eq]
      have hsb : (b2 &&& 0x3F) <<< 6 = (b2 &&& 0x3F) * 64 := by
        rw [Nat.shiftLeft_eq]
      omega
    have hsome : charFromU32
        (((b1 &&& 0xF) <<< 12) + ((b2 &&& 0x3F) <<< 6) + (b3 &&& 0x3F)) =
        some (((b1 &&& 0xF) <<< 12) + ((b2 &&& 0x3F) <<< 6) + (b3 &&& 0x3F)) := by
      refine charFromU32_some ?_
      rcases hv with h | h
      · exact Or.inl h
      · exact Or.inr ⟨h, by omega⟩
    unfold modified_utf8_to_string utf8Go
    rw [if_neg (by omega : ¬(b1 = 0 ∨ 0xF0 ≤ b1)), if_neg (by omega : ¬ b1 ≤ 0x7F)]
    try dsimp only
    rw [if_neg hnot2]
    try dsimp only
    rw [if_pos hmask, pushScalar_valid _ _ hsome]
    rfl

/-- Claim C9, witness: the malformed continuation bytes of 0xC1 0x41 and
0xE1 0x41 0x41 decode without error. -/
theorem claim_C9_witness :
    modified_utf8_to_string [0xC1, 0x41] = .ok [65] ∧
    modified_utf8_to_string [0xE1, 0x41, 0x41] = .ok [0x1041] :=
  ⟨claim_C9.1 0xC1 0x41 (by decide) (by decide) (by decide),
   claim_C9.2 0xE1 0x41 0x41 (by decide) (by decide) (by decide) (by decide)
     (Or.inl (by decide))⟩

/-- Claim C10: every successfully decoded constant pool (any count, any
input) has the Integer all-zero-bytes placeholder at index 0; the decoded
pool is immutable, so no later operation can change it. -/
theorem claim_C10 (count : Nat) (l : List Nat) (pool : List CpInfo) (rest : List Nat)
    (h : read_constant_pool count l = .ok pool rest) :
    pool.head? = some (CpInfo.integer [0, 0, 0, 0]) :=
  (read_constant_pool_ok_head h).2

/-- Claim C10, witness: the count-1 pool on empty input. -/
theorem claim_C10_witness :
    ([CpInfo.integer [0, 0, 0, 0]] : List CpInfo).head? =
      some (CpInfo.integer [0, 0, 0, 0]) :=
  claim_C10 1 [] [CpInfo.integer [0, 0, 0, 0]] [] rfl

end Jvm
